import Mathlib

/-!
Verification development for the `datamut` static scanner
(rule-driven detection of data-mutation operations in Python sources).

The definitions below are a shallow embedding of the code under
`src/datamut/`:

* `core/finding.py`   → `Severity`, `Finding`
* `core/loader.py`    → `ArgPresent`, `ExtraCheck`, `Rule`, `RuleMeta`,
                        `RuleBundle`, `RuleLoader`
* `core/context.py`   → `AnalysisContext`
* `visitors/base.py`  → snippet/position/string helpers
* `visitors/mutation.py`, `visitors/chain.py`, `visitors/sql.py`,
  `visitors/hardcoded.py`, `visitors/master.py` → the four detectors and
  the orchestrator.

Python dictionaries are modelled as association lists with
insertion-order/overwrite semantics (`dictInsert` / `dictGet?`); libcst
node identity (`id(node)`) is modelled by a `Nat` identifier carried on
every AST node; position metadata (libcst `PositionProvider`) is a
function from node identifiers to an optional position range.
Python regexes used by the hardcoded-value detector are transcribed into
an executable regular-expression datatype (`Rx`) with Python
`re.search` semantics.
-/

/-- Python `str.strip()` / `str.rstrip()` whitespace set (space, tab,
newline, carriage return, vertical tab, form feed). -/
def isPyWs (c : Char) : Bool :=
  c = ' ' || c = '\t' || c = '\n' || c = '\r' || c = '\x0b' || c = '\x0c'

/-- Python `str.strip()`. -/
def pyStrip (s : String) : String :=
  ⟨(s.toList.dropWhile isPyWs).reverse.dropWhile isPyWs |>.reverse⟩

/-- Python `str.rstrip()`. -/
def pyRStrip (s : String) : String :=
  ⟨(s.toList.reverse.dropWhile isPyWs).reverse⟩

/-- Python `str.strip('\x27"')`: drop single- and double-quote characters
from both ends. -/
def stripQuoteChars (s : String) : String :=
  let isQ : Char → Bool := fun c => c = '\'' || c = '"'
  ⟨(s.toList.dropWhile isQ).reverse.dropWhile isQ |>.reverse⟩

/-- Prefix test on character lists (structural, kernel-reducible
replacement for `String.isPrefixOf`). -/
def listPrefixOf : List Char → List Char → Bool
  | [], _ => true
  | _ :: _, [] => false
  | a :: ps, b :: ss => a = b && listPrefixOf ps ss

/-- Substring occurrence on character lists. -/
def listContainsSub (sub : List Char) : List Char → Bool
  | [] => sub.isEmpty
  | b :: rest => listPrefixOf sub (b :: rest) || listContainsSub sub rest

/-- Python substring test `sub in s` (the empty string is a substring of
everything). -/
def strContains (s sub : String) : Bool :=
  listContainsSub sub.toList s.toList

/-- Python `str.startswith(p)`. -/
def strStartsWith (s p : String) : Bool := listPrefixOf p.toList s.toList

/-- Split on a single character (structural replacement for
`String.splitOn` with a one-character separator). -/
def splitOnCharList (c : Char) : List Char → List (List Char)
  | [] => [[]]
  | a :: rest =>
    if a = c then [] :: splitOnCharList c rest
    else
      match splitOnCharList c rest with
      | h :: t => (a :: h) :: t
      | [] => [[a]]

/-- Split a string on a single character. -/
def splitOnChar (s : String) (c : Char) : List String :=
  (splitOnCharList c s.toList).map (fun l => ⟨l⟩)

/-- ASCII lower-casing of one character. -/
def asciiLowerChar (c : Char) : Char :=
  if 'A' ≤ c && c ≤ 'Z' then Char.ofNat (c.toNat + 32) else c

/-- ASCII upper-casing of one character. -/
def asciiUpperChar (c : Char) : Char :=
  if 'a' ≤ c && c ≤ 'z' then Char.ofNat (c.toNat - 32) else c

/-- Python `str.lower()` (ASCII case mapping suffices for the scanner's
inputs). -/
def strLower (s : String) : String := ⟨s.toList.map asciiLowerChar⟩

/-- Python `str.upper()` (ASCII case mapping suffices for the scanner's
inputs). -/
def pyUpper (s : String) : String := ⟨s.toList.map asciiUpperChar⟩

/-- Splitter of Python `str.split()`: whitespace runs separate fields,
no empty fields are produced. -/
def splitWsAux : List Char → List Char → List String
  | [], acc => if acc.isEmpty then [] else [⟨acc.reverse⟩]
  | c :: rest, acc =>
    if isPyWs c then
      (if acc.isEmpty then splitWsAux rest []
       else ⟨acc.reverse⟩ :: splitWsAux rest [])
    else splitWsAux rest (c :: acc)

/-- Python `str.split()` with no argument: split on whitespace runs,
discarding empty fields. -/
def pySplit (s : String) : List String := splitWsAux s.toList []

/-- Count occurrences of a character in a string (Python `str.count` for
single-character needles). -/
def charCount (s : String) (c : Char) : Nat :=
  (s.toList.filter (fun x => x = c)).length

/-- Python `str.endswith(c)` for a single-character suffix. -/
def endsWithChar (s : String) (c : Char) : Bool :=
  match s.toList.getLast? with
  | some x => x = c
  | none => false

/-- Python `str.startswith(prefixes)` for a tuple of prefixes. -/
def startsWithAny (s : String) (ps : List String) : Bool :=
  ps.any (fun p => strStartsWith s p)

/-- First `n` characters of a string (Python `s[:n]`). -/
def strTake (s : String) (n : Nat) : String := ⟨s.toList.take n⟩

/-- Association-list model of a Python `dict` keyed by strings:
assignment keeps the original position of an existing key and appends a
fresh key. -/
def dictInsert {α : Type} (m : List (String × α)) (k : String) (v : α) :
    List (String × α) :=
  if m.any (fun p => p.1 = k) then
    m.map (fun p => if p.1 = k then (k, v) else p)
  else m ++ [(k, v)]

/-- Python `dict.get(k)`. -/
def dictGet? {α : Type} (m : List (String × α)) (k : String) : Option α :=
  (m.find? (fun p => p.1 = k)).map (fun p => p.2)

/-- Python `k in dict`. -/
def dictHas {α : Type} (m : List (String × α)) (k : String) : Bool :=
  m.any (fun p => p.1 = k)

/-- Severity levels (`core/finding.py`, class `Severity`). -/
inductive Severity where
  | LOW
  | MEDIUM
  | HIGH
  | CRITICAL
deriving DecidableEq, Repr

/-- Numeric weight used for exit-code decisions
(`Severity.exit_code_weight`). -/
def Severity.exitCodeWeight : Severity → Nat
  | .LOW => 0
  | .MEDIUM => 1
  | .HIGH => 2
  | .CRITICAL => 3

/-- Python values that appear as rule-check expected values
(`extra_checks.arg_present['value']`): booleans, strings, integers. -/
inductive PyVal where
  | pybool (b : Bool)
  | pystr (s : String)
  | pyint (n : Int)
deriving DecidableEq, Repr

/-- Python `str()` on a `PyVal`. -/
def PyVal.pyToString : PyVal → String
  | .pybool true => "True"
  | .pybool false => "False"
  | .pystr s => s
  | .pyint n => toString n

/-- Values stored in a finding's `extra_context` dictionary. -/
inductive CtxVal where
  | str (s : String)
  | nat (n : Nat)
  | bool (b : Bool)
  | strList (l : List String)
  | matchedArg (name : String) (value : PyVal)
  | pynone
deriving DecidableEq, Repr

/-- Finding record (`core/finding.py`, class `Finding`). -/
structure Finding where
  filePath : String
  lineNumber : Nat
  columnOffset : Nat
  library : String
  functionName : String
  mutationType : String
  severity : Severity
  codeSnippet : String
  notes : Option String := none
  ruleId : Option String := none
  extraContext : List (String × CtxVal) := []
deriving DecidableEq, Repr

/-- The `arg_present` dictionary of a rule's extra check, as consumed by
the visitors (`rule.extra_checks.arg_present.get('name' / 'value' /
'set_severity')`). -/
structure ArgPresent where
  name : String
  value : PyVal
  setSeverity : Option Severity := none
deriving Repr, DecidableEq

/-- Extra validation check for a rule (`core/loader.py`, class
`ExtraCheck`).  The top-level `set_severity` field of the Python class is
never consulted by the visitors, which read `set_severity` out of the
`arg_present` dictionary instead, so only `arg_present` is modelled. -/
structure ExtraCheck where
  argPresent : Option ArgPresent := none
deriving Repr, DecidableEq

/-- A single mutation detection rule (`core/loader.py`, class `Rule`). -/
structure Rule where
  func : String
  mutation : String
  defaultSeverity : Severity
  notes : Option String := none
  extraChecks : Option ExtraCheck := none
deriving Repr, DecidableEq

/-- `Rule.rule_id`: `f"{func}.{mutation}"` with spaces and hyphens in the
mutation label replaced by underscores. -/
def Rule.ruleId (r : Rule) : String :=
  r.func ++ "." ++ (⟨r.mutation.toList.map (fun c => if c = ' ' || c = '-' then '_' else c)⟩ : String)

/-- Bundle metadata (`core/loader.py`, class `RuleMeta`).  The compiled
`alias_regex` is modelled by its matching function (`re.match` against
the pattern). -/
structure RuleMeta where
  library : String
  aliasMatch : String → Bool

/-- A rule bundle (`core/loader.py`, class `RuleBundle`). -/
structure RuleBundle where
  meta : RuleMeta
  rules : List Rule

/-- The loaded rule catalogue (`core/loader.py`, class `RuleLoader`).
`_rule_lookup` is the derived index where, for a `(library, func)` key
occurring several times, the last loaded rule wins. -/
structure RuleLoader where
  bundles : List RuleBundle

/-- `RuleLoader.get_rule(library, function)` via the `_rule_lookup`
index: all rules of all bundles of that library, last write wins. -/
def RuleLoader.getRule (L : RuleLoader) (library func : String) : Option Rule :=
  (((L.bundles.filter (fun b => b.meta.library = library)).flatMap
      (fun b => b.rules)).filter (fun r => r.func = func)).getLast?

/-- `RuleLoader.get_rule` where the library may be Python `None` (a
`None` key is absent from the lookup dictionary). -/
def RuleLoader.getRuleOpt (L : RuleLoader) (library : Option String)
    (func : String) : Option Rule :=
  match library with
  | some lib => L.getRule lib func
  | none => none

/-- `RuleLoader.resolve_alias`: first bundle whose alias regex matches
wins. -/
def RuleLoader.resolveAlias (L : RuleLoader) (nm : String) : Option String :=
  (L.bundles.find? (fun b => b.meta.aliasMatch nm)).map (fun b => b.meta.library)

/-- Per-file analysis context (`core/context.py`, class
`AnalysisContext`): alias map and direct imports built by the import
pre-pass. -/
structure AnalysisContext where
  aliases : List (String × String) := []
  imports : List String := []

/-- `AnalysisContext.resolve_name`: alias lookup with the name itself as
default. -/
def AnalysisContext.resolveName (ctx : AnalysisContext) (name : String) : String :=
  (dictGet? ctx.aliases name).getD name

/-- Binary operator kinds: the hardcoded-value detector only
distinguishes `+` (string concatenation) from everything else. -/
inductive BinOpKind where
  | add
  | otherOp
deriving DecidableEq, Repr

/-- Shallow embedding of the libcst expression nodes consumed by the
detectors.  Every node carries a `Nat` identifier standing for CPython
object identity (`id(node)`); string and numeric literals carry their
raw token text (including quotes for strings).  `Other` stands for any
expression form the detectors have no handler for; its children are
still traversed. -/
inductive Expr where
  | Name (nid : Nat) (value : String)
  | Attribute (nid : Nat) (value : Expr) (attr : String)
  | Call (nid : Nat) (func : Expr) (args : List (Option String × Expr))
  | Subscript (nid : Nat) (value : Expr) (slice : List Expr)
  | SimpleString (nid : Nat) (text : String)
  | ConcatenatedString (nid : Nat) (left : Expr) (right : Expr)
  | IntegerLit (nid : Nat) (text : String)
  | FloatLit (nid : Nat) (text : String)
  | BinaryOperation (nid : Nat) (left : Expr) (op : BinOpKind) (right : Expr)
  | Other (nid : Nat) (children : List Expr)

/-- Identifier of an expression node (`id(node)`). -/
def Expr.nid : Expr → Nat
  | .Name n _ => n
  | .Attribute n _ _ => n
  | .Call n _ _ => n
  | .Subscript n _ _ => n
  | .SimpleString n _ => n
  | .ConcatenatedString n _ _ => n
  | .IntegerLit n _ => n
  | .FloatLit n _ => n
  | .BinaryOperation n _ _ _ => n
  | .Other n _ => n

/-- Small statements inside a `SimpleStatementLine`.  An `Assign` models
`cst.Assign` with its list of assignment targets. -/
inductive SmallStmt where
  | Assign (sid : Nat) (targets : List Expr) (value : Expr)
  | ExprStmt (sid : Nat) (value : Expr)
  | OtherSmall (sid : Nat) (children : List Expr)

/-- A `cst.SimpleStatementLine` with its node identifier. -/
structure StmtLine where
  sid : Nat
  body : List SmallStmt

/-- A parsed module, restricted to the simple statement lines the
detectors have handlers for. -/
abbrev PyModule := List StmtLine

/-- A position range from the libcst `PositionProvider` metadata. -/
structure PosRange where
  startLine : Nat
  startCol : Nat
  endLine : Nat
  endCol : Nat

/-- Read-only inputs shared by every visitor: file path, rule
catalogue, analysis context, position metadata (by node identifier) and
the source lines set by `set_source_code`. -/
structure VisitorEnv where
  filePath : String
  ruleLoader : RuleLoader
  context : AnalysisContext
  posMeta : Nat → Option PosRange
  sourceLines : List String

/-- `BaseVisitor._get_position`: start line and column from metadata. -/
def getPosition (env : VisitorEnv) (nid : Nat) : Option (Nat × Nat) :=
  (env.posMeta nid).map (fun p => (p.startLine, p.startCol))

/-- Helper of `BaseVisitor._extract_code_snippet`: Python
`'\n'.join(src[i-1].rstrip() for i in range(a, b) if 0 < i <= len).strip()`. -/
def joinLinesRange (src : List String) (a b : Nat) : String :=
  pyStrip (String.intercalate "\n"
    (((List.range' a (b - a)).filter (fun i => 0 < i && i ≤ src.length)).map
      (fun i => pyRStrip ((src.get? (i - 1)).getD ""))))

/-- Incompleteness test of `_extract_code_snippet`: the line ends with a
continuation character or has unbalanced brackets. -/
def lineIncomplete (cl : String) : Bool :=
  endsWithChar cl ',' || endsWithChar cl '(' || endsWithChar cl '[' ||
    endsWithChar cl '\x7b' ||
    !(charCount cl '(' = charCount cl ')') ||
    !(charCount cl '[' = charCount cl ']') ||
    !(charCount cl '\x7b' = charCount cl '\x7d')

/-- Continuation test used by the backward/forward statement scans of
`_extract_code_snippet`. -/
def scanLineContinues (s : String) : Bool :=
  endsWithChar s ',' || endsWithChar s '(' || endsWithChar s '[' ||
    endsWithChar s '\x7b' || endsWithChar s '\\'

/-- Backward statement scan of `_extract_code_snippet`: `i` runs from
`line_number - 1` down to `1`; `acc` is the current `statement_start`. -/
def backScanAux (src : List String) : Nat → Nat → Nat
  | 0, acc => acc
  | i + 1, acc =>
    let prev := pyStrip ((src.get? i).getD "")
    if !scanLineContinues prev &&
        charCount prev '(' = charCount prev ')' &&
        charCount prev '[' = charCount prev ']' then acc
    else backScanAux src i (i + 1)

/-- Forward statement scan of `_extract_code_snippet`: returns the final
`statement_end` and the (mutated) accumulated current line. -/
def forwardScanAux (src : List String) (lineNumber : Nat) :
    Nat → Nat → String → Nat × String
  | _, 0, cl => (lineNumber, cl)
  | i, fuel + 1, cl =>
    let nxt := pyStrip ((src.get? i).getD "")
    if !scanLineContinues nxt &&
        charCount cl '(' = charCount cl ')' &&
        charCount cl '[' = charCount cl ']' then (i + 1, cl)
    else forwardScanAux src lineNumber (i + 1) fuel (cl ++ " " ++ nxt)

/-- `BaseVisitor._extract_code_snippet` (also duplicated in
`hardcoded.py` via inheritance): extract the source text around a node,
using metadata for multi-line nodes and a bracket-balancing statement
scan for incomplete single lines. -/
def extractCodeSnippet (env : VisitorEnv) (nid : Nat) (lineNumber : Nat) : String :=
  let src := env.sourceLines
  if src.isEmpty || lineNumber < 1 || src.length < lineNumber then ""
  else
    let r : Nat × Nat :=
      match env.posMeta nid with
      | some p => (p.startLine, p.endLine)
      | none => (lineNumber, lineNumber)
    if r.2 > r.1 then joinLinesRange src r.1 (min (r.2 + 1) (src.length + 1))
    else
      let currentLine := pyStrip ((src.get? (lineNumber - 1)).getD "")
      if lineIncomplete currentLine then
        let stmtStart := backScanAux src (lineNumber - 1) lineNumber
        let fe := forwardScanAux src lineNumber lineNumber
          (src.length - lineNumber) currentLine
        if fe.1 > stmtStart then
          joinLinesRange src stmtStart (min (fe.1 + 1) (src.length + 1))
        else fe.2
      else currentLine

/-- `_get_full_attribute_path` (identical in `mutation.py` and
`chain.py`): dotted path of an attribute expression, resolving the root
name through the context; an empty base is falsy and yields `None`. -/
def getFullAttributePath (ctx : AnalysisContext) : Expr → Option String
  | .Name _ v => some (ctx.resolveName v)
  | .Attribute _ v attr =>
    (getFullAttributePath ctx v).bind
      (fun b => if b = "" then none else some (b ++ "." ++ attr))
  | _ => none

/-- `_has_argument_with_value` (identical in `mutation.py` and
`chain.py`): does the call carry a keyword argument of the given name
whose literal value equals the expected one (string-normalised for
numeric/string literals, name comparison for boolean keywords)? -/
def hasArgumentWithValue (args : List (Option String × Expr))
    (argName : String) (expected : PyVal) : Bool :=
  args.any fun a =>
    match a.1 with
    | none => false
    | some kw =>
      kw = argName &&
        (match a.2 with
         | .Name _ v =>
           (match expected with
            | .pybool true => v = "True"
            | .pybool false => v = "False"
            | .pystr s => v = s
            | _ => false)
         | .IntegerLit _ t => PyVal.pyToString expected = t
         | .FloatLit _ t => PyVal.pyToString expected = t
         | .SimpleString _ t => PyVal.pyToString expected = stripQuoteChars t
         | _ => false)

/-- `_apply_extra_checks` (identical in `mutation.py` and `chain.py`):
on a matching keyword argument, record `matched_arg` in the extra
context and, when the check carries a truthy `set_severity`, replace the
severity. -/
def applyExtraChecks (args : List (Option String × Expr)) (rule : Rule)
    (defaultSeverity : Severity) : Severity × List (String × CtxVal) :=
  match rule.extraChecks with
  | none => (defaultSeverity, [])
  | some ec =>
    match ec.argPresent with
    | none => (defaultSeverity, [])
    | some ap =>
      if hasArgumentWithValue args ap.name ap.value then
        let ctx := [("matched_arg", CtxVal.matchedArg ap.name ap.value)]
        match ap.setSeverity with
        | some sv => (sv, ctx)
        | none => (defaultSeverity, ctx)
      else (defaultSeverity, [])

/-- Python slice `s[n:-n]` for the quote stripping of string tokens. -/
def strDropEnds (s : String) (n : Nat) : String :=
  ⟨((s.toList.drop n).reverse.drop n).reverse⟩

/-- `BaseVisitor._extract_string_value`: strip the quotes of a string
token; concatenated strings are joined part-wise, skipping falsy
parts. -/
def extractStringValue : Expr → Option String
  | .SimpleString _ v =>
    if strStartsWith v "\"\"\"" || strStartsWith v "\'\'\'" then some (strDropEnds v 3)
    else if strStartsWith v "\"" || strStartsWith v "\'" then some (strDropEnds v 1)
    else some v
  | .ConcatenatedString _ l r =>
    some ((extractStringValue l).getD "" ++ (extractStringValue r).getD "")
  | _ => none

/-- State of the Mutation Detector (`mutation.py`, class
`MutationVisitor`): type-flow bindings and the findings list. -/
structure MutState where
  variableTypes : List (String × String) := []
  findings : List Finding := []
deriving Repr

/-- `MutationVisitor._extract_function_info`, applied to the `func`
field of a call node.  Unlike the chain visitor's copy, this version has
no branch for a receiver that is itself a call. -/
def mutExtractFunctionInfo (env : VisitorEnv) (vt : List (String × String)) :
    Expr → Option (Option String × String)
  | .Name _ fn =>
    let resolved := env.context.resolveName fn
    if strContains resolved "." then
      let parts := splitOnChar resolved '.'
      some (some ((parts.get? 0).getD ""), (parts.getLast?).getD "")
    else some (none, fn)
  | .Attribute _ (.Name _ obj) attr =>
    (match dictGet? vt obj with
     | some lib => some (some lib, attr)
     | none =>
       let resolved := env.context.resolveName obj
       match env.ruleLoader.resolveAlias resolved with
       | some lib => some (some lib, attr)
       | none => some (some resolved, attr))
  | .Attribute _ (.Subscript _ (.Name _ obj) _) attr =>
    (match dictGet? vt obj with
     | some lib => some (some lib, attr)
     | none =>
       match env.ruleLoader.resolveAlias (env.context.resolveName obj) with
       | some lib => some (some lib, attr)
       | none =>
         if startsWithAny obj ["df", "data", "frame"] then some (some "pandas", attr)
         else if startsWithAny obj ["arr", "array", "np_"] then some (some "numpy", attr)
         else none)
  | .Attribute _ (.Attribute n v a) attr =>
    (match getFullAttributePath env.context (.Attribute n v a) with
     | some fullPath =>
       let headSeg := ((splitOnChar fullPath '.').get? 0).getD ""
       (match env.ruleLoader.resolveAlias headSeg with
        | some lib => some (some lib, attr)
        | none => some (some headSeg, attr))
     | none => none)
  | .Attribute _ _ _ => none
  | _ => none

/-- Notes text of a non-negated boolean-indexing finding
(`mutation.py`, `_check_boolean_indexing`). -/
def boolIdxNotes (v : String) : String :=
  "Boolean indexing operation on DataFrame \x27" ++ v ++
    "\x27 which can filter out rows and reduce dataset size. " ++
    "This is a common pattern for data filtering but should be audited for data loss."

/-- Notes text of a negated boolean-indexing finding (`mutation.py`,
`_check_boolean_indexing`). -/
def boolIdxNegNotes (v : String) : String :=
  "Negative boolean indexing (using ~) on DataFrame \x27" ++ v ++
    "\x27 which explicitly drops/excludes rows from the dataset. " ++
    "This can result in significant data loss and should be carefully reviewed."

/-- The synthesized finding of
`MutationVisitor._check_boolean_indexing`: severity `HIGH` when the
extracted snippet contains a `~` token, else `MEDIUM`. -/
def boolIdxFinding (env : VisitorEnv) (sid : Nat)
    (varName indexedVar : String) : Finding :=
  let position := (getPosition env sid).getD (1, 0)
  let codeSnippet := extractCodeSnippet env sid position.1
  let hasNeg := strContains codeSnippet "~"
  { filePath := env.filePath
    lineNumber := position.1
    columnOffset := position.2
    library := "pandas"
    functionName := "boolean_indexing"
    mutationType := "dataframe boolean indexing/filtering"
    severity := if hasNeg then Severity.HIGH else Severity.MEDIUM
    codeSnippet := codeSnippet
    notes := some (if hasNeg then boolIdxNegNotes indexedVar else boolIdxNotes indexedVar)
    ruleId := some "pandas.boolean_indexing"
    extraContext := [("indexed_variable", CtxVal.str indexedVar),
                     ("target_variable", CtxVal.str varName),
                     ("has_negation", CtxVal.bool hasNeg)] }

/-- Dispatch of `MutationVisitor._check_boolean_indexing` proper: on a
subscript of a pandas-bound name, append the synthesized finding and
rebind the target. -/
def mutCheckBooleanIndexing (env : VisitorEnv) (s : MutState) (sid : Nat)
    (varName : String) (value : Expr) : MutState :=
  match value with
  | .Subscript _ (.Name _ indexedVar) _ =>
    if dictGet? s.variableTypes indexedVar = some "pandas" then
      { s with findings := s.findings ++ [boolIdxFinding env sid varName indexedVar],
               variableTypes := dictInsert s.variableTypes varName "pandas" }
    else s
  | _ => s

/-- `MutationVisitor.visit_Assign`: track type-flow bindings for
call-valued assignments and check subscript-valued assignments for
boolean indexing. -/
def mutVisitAssignNode (env : VisitorEnv) (s : MutState) (sid : Nat)
    (targets : List Expr) (value : Expr) : MutState :=
  match targets with
  | [.Name _ varName] =>
    (match value with
     | .Call _ f _ =>
       (match mutExtractFunctionInfo env s.variableTypes f with
        | some (some lib, _) =>
          if lib = "pandas" || lib = "numpy" then
            { s with variableTypes := dictInsert s.variableTypes varName lib }
          else s
        | _ => s)
     | .Subscript n v sl => mutCheckBooleanIndexing env s sid varName (.Subscript n v sl)
     | _ => s)
  | _ => s

/-- `MutationVisitor.visit_Call`: resolve `(library, function)`, look up
a rule, apply extra checks and emit a finding. -/
def mutVisitCallNode (env : VisitorEnv) (s : MutState) (nid : Nat)
    (f : Expr) (args : List (Option String × Expr)) : MutState :=
  match mutExtractFunctionInfo env s.variableTypes f with
  | none => s
  | some (libOpt, functionName) =>
    match libOpt with
    | none => s
    | some lib =>
      if lib = "pandas" || lib = "numpy" then
        match env.ruleLoader.getRule lib functionName with
        | none => s
        | some rule =>
          let position := (getPosition env nid).getD (1, 0)
          let codeSnippet := extractCodeSnippet env nid position.1
          let sc := applyExtraChecks args rule rule.defaultSeverity
          let fd : Finding :=
            { filePath := env.filePath
              lineNumber := position.1
              columnOffset := position.2
              library := lib
              functionName := functionName
              mutationType := rule.mutation
              severity := sc.1
              codeSnippet := codeSnippet
              notes := rule.notes
              ruleId := some rule.ruleId
              extraContext := sc.2 }
          { s with findings := s.findings ++ [fd] }
      else s

mutual
/-- Pre-order traversal of the Mutation Detector over expressions
(libcst visitor order: a node's handler runs before its children are
traversed). -/
def mutVisitExpr (env : VisitorEnv) (s : MutState) : Expr → MutState
  | .Call nid f args =>
    let s1 := mutVisitCallNode env s nid f args
    mutVisitArgs env (mutVisitExpr env s1 f) args
  | .Attribute _ v _ => mutVisitExpr env s v
  | .Subscript _ v sl => mutVisitExprList env (mutVisitExpr env s v) sl
  | .ConcatenatedString _ l r => mutVisitExpr env (mutVisitExpr env s l) r
  | .BinaryOperation _ l _ r => mutVisitExpr env (mutVisitExpr env s l) r
  | .Other _ ch => mutVisitExprList env s ch
  | _ => s

/-- Traversal of the Mutation Detector over call arguments. -/
def mutVisitArgs (env : VisitorEnv) (s : MutState) :
    List (Option String × Expr) → MutState
  | [] => s
  | (_, e) :: rest => mutVisitArgs env (mutVisitExpr env s e) rest

/-- Traversal of the Mutation Detector over an expression list. -/
def mutVisitExprList (env : VisitorEnv) (s : MutState) : List Expr → MutState
  | [] => s
  | e :: rest => mutVisitExprList env (mutVisitExpr env s e) rest
end

/-- Mutation Detector traversal over a small statement. -/
def mutVisitSmallStmt (env : VisitorEnv) (s : MutState) : SmallStmt → MutState
  | .Assign sid targets value =>
    let s1 := mutVisitAssignNode env s sid targets value
    mutVisitExpr env (mutVisitExprList env s1 targets) value
  | .ExprStmt _ v => mutVisitExpr env s v
  | .OtherSmall _ ch => mutVisitExprList env s ch

/-- Mutation Detector traversal over a statement line. -/
def mutVisitLine (env : VisitorEnv) (s : MutState) (l : StmtLine) : MutState :=
  l.body.foldl (mutVisitSmallStmt env) s

/-- Full run of the Mutation Detector over a module
(`MutationVisitor` driven by `MetadataWrapper.visit`). -/
def mutationRun (env : VisitorEnv) (m : PyModule) : MutState :=
  m.foldl (mutVisitLine env) {}

/-- State of the Chain Detector (`chain.py`, class `ChainVisitor`):
type-flow bindings, identities of processed chain roots, identities of
marked inner calls, and the findings list. -/
structure ChainState where
  variableTypes : List (String × String) := []
  processedChains : List Nat := []
  innerCalls : List Nat := []
  findings : List Finding := []
deriving Repr

/-- Shared receiver resolution of `chain.py` (used for both the `Name`
and `Subscript` receiver shapes of `_infer_library_from_chain`):
tracked variable, then alias pattern, then the naming-convention
heuristic. -/
def chainResolveObjName (env : VisitorEnv) (vt : List (String × String))
    (obj : String) : Option String :=
  match dictGet? vt obj with
  | some lib => some lib
  | none =>
    match env.ruleLoader.resolveAlias (env.context.resolveName obj) with
    | some lib => some lib
    | none =>
      if startsWithAny obj ["df", "data", "frame"] then some "pandas"
      else if startsWithAny obj ["arr", "array", "np_"] then some "numpy"
      else none

/-- `ChainVisitor._infer_library_from_chain`: walk inward through the
chain until a resolvable root receiver is found. -/
def inferLibraryFromChain (env : VisitorEnv) (vt : List (String × String)) :
    Expr → Option String
  | .Call _ (.Attribute _ (.Name _ obj) _) _ => chainResolveObjName env vt obj
  | .Call _ (.Attribute _ (.Subscript _ (.Name _ obj) _) _) _ =>
    chainResolveObjName env vt obj
  | .Call _ (.Attribute _ (.Subscript _ _ _) _) _ => none
  | .Call _ (.Attribute _ (.Call n f a) _) _ => inferLibraryFromChain env vt (.Call n f a)
  | _ => none

/-- `ChainVisitor._extract_function_info`, applied to the `func` field
of a call node.  Identical to the mutation visitor's copy except for the
extra branch handling a receiver that is itself a call (chained method
call). -/
def chainExtractFunctionInfo (env : VisitorEnv) (vt : List (String × String)) :
    Expr → Option (Option String × String)
  | .Name _ fn =>
    let resolved := env.context.resolveName fn
    if strContains resolved "." then
      let parts := splitOnChar resolved '.'
      some (some ((parts.get? 0).getD ""), (parts.getLast?).getD "")
    else some (none, fn)
  | .Attribute _ (.Name _ obj) attr =>
    (match dictGet? vt obj with
     | some lib => some (some lib, attr)
     | none =>
       let resolved := env.context.resolveName obj
       match env.ruleLoader.resolveAlias resolved with
       | some lib => some (some lib, attr)
       | none => some (some resolved, attr))
  | .Attribute _ (.Subscript _ (.Name _ obj) _) attr =>
    (match dictGet? vt obj with
     | some lib => some (some lib, attr)
     | none =>
       match env.ruleLoader.resolveAlias (env.context.resolveName obj) with
       | some lib => some (some lib, attr)
       | none =>
         if startsWithAny obj ["df", "data", "frame"] then some (some "pandas", attr)
         else if startsWithAny obj ["arr", "array", "np_"] then some (some "numpy", attr)
         else none)
  | .Attribute _ (.Call n f a) attr =>
    (match inferLibraryFromChain env vt (.Call n f a) with
     | some lib => some (some lib, attr)
     | none => none)
  | .Attribute _ (.Attribute n v a) attr =>
    (match getFullAttributePath env.context (.Attribute n v a) with
     | some fullPath =>
       let headSeg := ((splitOnChar fullPath '.').get? 0).getD ""
       (match env.ruleLoader.resolveAlias headSeg with
        | some lib => some (some lib, attr)
        | none => some (some headSeg, attr))
     | none => none)
  | .Attribute _ _ _ => none
  | _ => none

/-- `ChainVisitor._get_chain_root`: innermost call of a method chain. -/
def getChainRoot : Expr → Expr
  | .Call _ (.Attribute _ (.Call k f a) _) _ => getChainRoot (.Call k f a)
  | e => e

/-- `ChainVisitor._mark_inner_calls`: identities of every call strictly
inside the chain of the given call. -/
def markInnerCalls : Expr → List Nat
  | .Call _ (.Attribute _ (.Call n f a) _) _ => n :: markInnerCalls (.Call n f a)
  | _ => []

/-- Arguments of a call expression. -/
def argsOf : Expr → List (Option String × Expr)
  | .Call _ _ args => args
  | _ => []

/-- Collection loop of `ChainVisitor._extract_chain_functions`, walking
the chain from the outermost call inward and keeping the links whose
resolved `(library, function)` has a rule. -/
def chainCollect (env : VisitorEnv) (vt : List (String × String)) :
    Expr → List (String × String × Expr)
  | .Call n f args =>
    let entry : List (String × String × Expr) :=
      match chainExtractFunctionInfo env vt f with
      | some (some lib, fn) =>
        (match env.ruleLoader.getRule lib fn with
         | some _ => [(lib, fn, .Call n f args)]
         | none => [])
      | _ => []
    entry ++
      (match f with
       | .Attribute _ (.Call m g b) _ => chainCollect env vt (.Call m g b)
       | _ => [])
  | _ => []

/-- `ChainVisitor._extract_chain_functions`: matching links of a chain
in execution order (innermost first). -/
def extractChainFunctions (env : VisitorEnv) (vt : List (String × String))
    (e : Expr) : List (String × String × Expr) :=
  (chainCollect env vt e).reverse

/-- Accumulator of the link loop in
`ChainVisitor._process_chain_finding`. -/
structure ChainAcc where
  maxSeverity : Severity
  libraries : List String
  functionNames : List String
  mutationTypes : List String
deriving Repr

/-- One step of the link loop in `_process_chain_finding`: collect the
library and function name, and escalate the chain severity to
`CRITICAL` when the link's own extra check fires `CRITICAL` starting
from the `HIGH` floor. -/
def chainAccStep (env : VisitorEnv) (a : ChainAcc) (e : String × String × Expr) :
    ChainAcc :=
  let libs := if a.libraries.contains e.1 then a.libraries else a.libraries ++ [e.1]
  let fns := a.functionNames ++ [e.2.1]
  match env.ruleLoader.getRule e.1 e.2.1 with
  | some rule =>
    let sev :=
      if rule.extraChecks.isSome then
        (if (applyExtraChecks (argsOf e.2.2) rule Severity.HIGH).1 = Severity.CRITICAL
         then Severity.CRITICAL else a.maxSeverity)
      else a.maxSeverity
    { maxSeverity := sev, libraries := libs, functionNames := fns,
      mutationTypes := a.mutationTypes ++ [rule.mutation] }
  | none => { a with libraries := libs, functionNames := fns }

/-- First-occurrence deduplication, modelling iteration over a Python
`set` of strings built from a list (CPython iteration order of small
string sets is modelled as first-occurrence order). -/
def dedupFirst (l : List String) : List String :=
  l.foldl (fun acc x => if acc.contains x then acc else acc ++ [x]) []

/-- Insertion sort for `sorted(...)` on library names. -/
def insertSorted (x : String) : List String → List String
  | [] => [x]
  | y :: ys => if x ≤ y then x :: y :: ys else y :: insertSorted x ys

/-- Python `sorted` on a list of strings. -/
def sortStrings (l : List String) : List String := l.foldr insertSorted []

/-- Chain separator of `_process_chain_finding` as it appears in the
source file (a mojibake arrow). -/
def chainSeparator : String := " â†’ "

/-- `ChainVisitor._process_chain_finding`: emit one finding for a chain
of matching links, with the `HIGH` severity floor, optional `CRITICAL`
escalation, joined names/libraries and the chain extra context. -/
def processChainFinding (env : VisitorEnv) (st : ChainState) (c : Expr)
    (chainFns : List (String × String × Expr)) : ChainState :=
  if chainFns.isEmpty then st
  else
    let position := (getPosition env c.nid).getD (1, 0)
    let codeSnippet := extractCodeSnippet env c.nid position.1
    let acc := chainFns.foldl (chainAccStep env)
      { maxSeverity := Severity.HIGH, libraries := [], functionNames := [],
        mutationTypes := [] }
    let libraryStr :=
      if acc.libraries.length > 1 then
        String.intercalate "/" (sortStrings acc.libraries)
      else (acc.libraries.get? 0).getD ""
    let functionNamesStr := String.intercalate chainSeparator acc.functionNames
    let mutationTypesStr := String.intercalate ", " (dedupFirst acc.mutationTypes)
    let fd : Finding :=
      { filePath := env.filePath
        lineNumber := position.1
        columnOffset := position.2
        library := libraryStr
        functionName := functionNamesStr
        mutationType := "method chaining with mutations"
        severity := acc.maxSeverity
        codeSnippet := codeSnippet
        notes := some ("Chain of " ++ toString chainFns.length ++
          " mutation functions: " ++ functionNamesStr ++ ". Mutation types: " ++
          mutationTypesStr ++
          ". Chained operations can compound data loss and make debugging difficult.")
        ruleId := some "chain.multiple_mutations"
        extraContext := [("chain_length", CtxVal.nat chainFns.length),
                         ("functions", CtxVal.strList acc.functionNames),
                         ("libraries", CtxVal.strList acc.libraries),
                         ("mutation_types", CtxVal.strList (dedupFirst acc.mutationTypes))] }
    { st with findings := st.findings ++ [fd] }

/-- `ChainVisitor.visit_Call`: mark inner chain calls, skip marked and
already-processed calls, and emit one finding for a chain of more than
one matching link. -/
def chainVisitCallNode (env : VisitorEnv) (st : ChainState) (c : Expr) : ChainState :=
  let st1 := { st with innerCalls := st.innerCalls ++ markInnerCalls c }
  if st1.innerCalls.contains c.nid then st1
  else
    let root := getChainRoot c
    if st1.processedChains.contains root.nid then st1
    else
      let chainFns := extractChainFunctions env st1.variableTypes c
      if chainFns.length > 1 then
        let st2 := processChainFinding env st1 c chainFns
        { st2 with processedChains := st2.processedChains ++ [root.nid] }
      else st1

/-- `ChainVisitor.visit_Assign`: track type-flow bindings for
call-valued assignments into the chain visitor's wider recognized
library set. -/
def chainVisitAssignNode (env : VisitorEnv) (st : ChainState)
    (targets : List Expr) (value : Expr) : ChainState :=
  match targets with
  | [.Name _ varName] =>
    (match value with
     | .Call _ f _ =>
       (match chainExtractFunctionInfo env st.variableTypes f with
        | some (some lib, _) =>
          if ["pandas", "numpy", "sqlalchemy", "sqlite3", "psycopg2",
              "pymongo"].contains lib then
            { st with variableTypes := dictInsert st.variableTypes varName lib }
          else st
        | _ => st)
     | _ => st)
  | _ => st

mutual
/-- Pre-order traversal of the Chain Detector over expressions. -/
def chainVisitExpr (env : VisitorEnv) (st : ChainState) : Expr → ChainState
  | .Call nid f args =>
    let s1 := chainVisitCallNode env st (.Call nid f args)
    chainVisitArgs env (chainVisitExpr env s1 f) args
  | .Attribute _ v _ => chainVisitExpr env st v
  | .Subscript _ v sl => chainVisitExprList env (chainVisitExpr env st v) sl
  | .ConcatenatedString _ l r => chainVisitExpr env (chainVisitExpr env st l) r
  | .BinaryOperation _ l _ r => chainVisitExpr env (chainVisitExpr env st l) r
  | .Other _ ch => chainVisitExprList env st ch
  | _ => st

/-- Traversal of the Chain Detector over call arguments. -/
def chainVisitArgs (env : VisitorEnv) (st : ChainState) :
    List (Option String × Expr) → ChainState
  | [] => st
  | (_, e) :: rest => chainVisitArgs env (chainVisitExpr env st e) rest

/-- Traversal of the Chain Detector over an expression list. -/
def chainVisitExprList (env : VisitorEnv) (st : ChainState) :
    List Expr → ChainState
  | [] => st
  | e :: rest => chainVisitExprList env (chainVisitExpr env st e) rest
end

/-- Chain Detector traversal over a small statement. -/
def chainVisitSmallStmt (env : VisitorEnv) (st : ChainState) :
    SmallStmt → ChainState
  | .Assign _ targets value =>
    let s1 := chainVisitAssignNode env st targets value
    chainVisitExpr env (chainVisitExprList env s1 targets) value
  | .ExprStmt _ v => chainVisitExpr env st v
  | .OtherSmall _ ch => chainVisitExprList env st ch

/-- Chain Detector traversal over a statement line. -/
def chainVisitLine (env : VisitorEnv) (st : ChainState) (l : StmtLine) : ChainState :=
  l.body.foldl (chainVisitSmallStmt env) st

/-- Full run of the Chain Detector over a module. -/
def chainRun (env : VisitorEnv) (m : PyModule) : ChainState :=
  m.foldl (chainVisitLine env) {}

/-- State of the SQL-Literal Detector (`sql.py`, class `SQLVisitor`):
tracked SQL-holding variables and the findings list. -/
structure SqlState where
  sqlVariables : List (String × String) := []
  findings : List Finding := []
deriving Repr

/-- `SQLVisitor._contains_sql_operations`: the text is nonempty, at
least three characters once stripped, and contains (case-insensitively)
the function name of some rule of the `sql` bundle. -/
def containsSqlOperations (env : VisitorEnv) (text : String) : Bool :=
  if text = "" || (pyStrip text).length < 3 then false
  else
    match env.ruleLoader.bundles.find? (fun b => b.meta.library = "sql") with
    | none => false
    | some bundle =>
      bundle.rules.any (fun r => strContains (pyUpper text) (pyUpper r.func))

/-- Tracking step of `SQLVisitor.visit_Assign` for a string-valued
assignment. -/
def sqlTrack (env : VisitorEnv) (s : SqlState) (varName : String)
    (value : Expr) : SqlState :=
  match extractStringValue value with
  | some t =>
    if t ≠ "" && containsSqlOperations env t then
      { s with sqlVariables := dictInsert s.sqlVariables varName t }
    else s
  | none => s

/-- `SQLVisitor.visit_Assign`: remember variables assigned an SQL-like
string literal. -/
def sqlVisitAssignNode (env : VisitorEnv) (s : SqlState)
    (targets : List Expr) (value : Expr) : SqlState :=
  match targets with
  | [.Name _ varName] =>
    (match value with
     | .SimpleString n t => sqlTrack env s varName (.SimpleString n t)
     | .ConcatenatedString n l r => sqlTrack env s varName (.ConcatenatedString n l r)
     | _ => s)
  | _ => s

/-- Default finding notes of `SQLVisitor._process_sql_string`. -/
def sqlNotesDefault (word : String) : String :=
  "SQL " ++ word ++ " operation detected in string literal"

/-- `SQLVisitor._process_sql_string`: emit one finding per
whitespace-separated word of the upper-cased text that matches a rule of
the `sql` library; without position metadata for the statement line, no
finding is produced. -/
def processSqlString (env : VisitorEnv) (s : SqlState) (sqlText : String)
    (line : StmtLine) : SqlState :=
  match getPosition env line.sid with
  | none => s
  | some position =>
    (pySplit (pyUpper sqlText)).foldl
      (fun acc word =>
        match env.ruleLoader.getRule "sql" word with
        | some rule =>
          let fd : Finding :=
            { filePath := env.filePath
              lineNumber := position.1
              columnOffset := position.2
              library := "sql"
              functionName := word
              mutationType := rule.mutation
              severity := rule.defaultSeverity
              codeSnippet := extractCodeSnippet env line.sid position.1
              notes := some (match rule.notes with
                | some n => if n = "" then sqlNotesDefault word else n
                | none => sqlNotesDefault word)
              ruleId := some rule.ruleId
              extraContext := [("sql_text", CtxVal.str
                (if sqlText.length > 100 then strTake sqlText 100 ++ "..." else sqlText))] }
          { acc with findings := acc.findings ++ [fd] }
        | none => acc) s

/-- One argument step of `SQLVisitor._check_sql_in_call`. -/
def sqlArgStep (env : VisitorEnv) (line : StmtLine) (acc : SqlState)
    (a : Option String × Expr) : SqlState :=
  match a.2 with
  | .SimpleString n t =>
    (match extractStringValue (.SimpleString n t) with
     | some txt =>
       if txt ≠ "" && containsSqlOperations env txt then
         processSqlString env acc txt line
       else acc
     | none => acc)
  | .ConcatenatedString n l r =>
    (match extractStringValue (.ConcatenatedString n l r) with
     | some txt =>
       if txt ≠ "" && containsSqlOperations env txt then
         processSqlString env acc txt line
       else acc
     | none => acc)
  | .Name _ varName =>
    (match dictGet? acc.sqlVariables varName with
     | some txt => processSqlString env acc txt line
     | none => acc)
  | _ => acc

/-- `SQLVisitor._check_sql_in_call`: scan the arguments of a call for
direct string literals with SQL operations and for references to tracked
SQL-holding variables. -/
def checkSqlInCall (env : VisitorEnv) (s : SqlState)
    (args : List (Option String × Expr)) (line : StmtLine) : SqlState :=
  args.foldl (sqlArgStep env line) s

/-- One statement step of `SQLVisitor.visit_SimpleStatementLine`. -/
def sqlStmtCheckStep (env : VisitorEnv) (line : StmtLine) (acc : SqlState)
    (st : SmallStmt) : SqlState :=
  match st with
  | .ExprStmt _ (.Call _ _ args) => checkSqlInCall env acc args line
  | _ => acc

/-- `SQLVisitor.visit_SimpleStatementLine`: check the arguments of every
call appearing as an expression statement of the line. -/
def sqlVisitLineNode (env : VisitorEnv) (s : SqlState) (line : StmtLine) : SqlState :=
  line.body.foldl (sqlStmtCheckStep env line) s

/-- One assignment step of the SQL Detector traversal over a line's
statements. -/
def sqlAssignStep (env : VisitorEnv) (acc : SqlState) (st : SmallStmt) : SqlState :=
  match st with
  | .Assign _ targets value => sqlVisitAssignNode env acc targets value
  | _ => acc

/-- SQL Detector traversal over a statement line: the line handler runs
first, then the statement handlers (the SQL visitor has no
expression-level handlers, so expression traversal leaves its state
unchanged). -/
def sqlVisitLine (env : VisitorEnv) (s : SqlState) (line : StmtLine) : SqlState :=
  line.body.foldl (sqlAssignStep env) (sqlVisitLineNode env s line)

/-- Full run of the SQL-Literal Detector over a module. -/
def sqlRun (env : VisitorEnv) (m : PyModule) : SqlState :=
  m.foldl (sqlVisitLine env) {}

/-- Executable regular expressions for the hardcoded-value detector's
pattern table.  Character classes are predicates; case-insensitivity of
a `(?i)` pattern is compiled into its literal classes. -/
inductive Rx where
  | eps
  | cls (f : Char → Bool)
  | seq (a b : Rx)
  | alt (a b : Rx)
  | star (a : Rx)

/-- Nullability: the expression matches the empty string. -/
def rxNullable : Rx → Bool
  | .eps => true
  | .cls _ => false
  | .seq a b => rxNullable a && rxNullable b
  | .alt a b => rxNullable a || rxNullable b
  | .star _ => true

/-- Brzozowski derivative of the expression with respect to one
character. -/
def rxDeriv : Rx → Char → Rx
  | .eps, _ => .cls (fun _ => false)
  | .cls f, c => if f c then .eps else .cls (fun _ => false)
  | .seq a b, c =>
    if rxNullable a then .alt (.seq (rxDeriv a c) b) (rxDeriv b c)
    else .seq (rxDeriv a c) b
  | .alt a b, c => .alt (rxDeriv a c) (rxDeriv b c)
  | .star a, c => .seq (rxDeriv a c) (.star a)

/-- The expression matches some prefix of the input. -/
def rxMatchesPrefix : Rx → List Char → Bool
  | r, [] => rxNullable r
  | r, c :: rest => rxNullable r || rxMatchesPrefix (rxDeriv r c) rest

/-- Python `re.search`: the expression matches starting at some position
of the input. -/
def rxSearchAux (r : Rx) : List Char → Bool
  | [] => rxNullable r
  | c :: rest => rxMatchesPrefix r (c :: rest) || rxSearchAux r rest

/-- Python `re.search` on a string, as a Boolean. -/
def rxSearch (r : Rx) (s : String) : Bool := rxSearchAux r s.toList

/-- Literal character. -/
def Rx.lit (c : Char) : Rx := .cls (fun x => x = c)

/-- Case-insensitive literal character (for `(?i)` patterns). -/
def Rx.litCI (c : Char) : Rx := .cls (fun x => asciiLowerChar x = asciiLowerChar c)

/-- Sequence of a list of expressions. -/
def rxSeqs (l : List Rx) : Rx := l.foldr Rx.seq .eps

/-- Literal string. -/
def rxStr (s : String) : Rx := rxSeqs (s.toList.map Rx.lit)

/-- Case-insensitive literal string. -/
def rxStrCI (s : String) : Rx := rxSeqs (s.toList.map Rx.litCI)

/-- Alternation of a list of expressions (empty list matches nothing). -/
def rxAlts : List Rx → Rx
  | [] => .cls (fun _ => false)
  | [r] => r
  | r :: rest => .alt r (rxAlts rest)

/-- `r+`. -/
def Rx.plus (a : Rx) : Rx := .seq a (.star a)

/-- `r?`. -/
def Rx.opt (a : Rx) : Rx := .alt a .eps

/-- `r{n}`. -/
def rxRep (a : Rx) : Nat → Rx
  | 0 => .eps
  | n + 1 => .seq a (rxRep a n)

/-- At most `n` repetitions. -/
def rxUpTo (a : Rx) : Nat → Rx
  | 0 => .eps
  | n + 1 => Rx.opt (.seq a (rxUpTo a n))

/-- `r{n,}`. -/
def rxAtLeast (a : Rx) (n : Nat) : Rx := .seq (rxRep a n) (.star a)

/-- `r{n,m}`. -/
def rxRange (a : Rx) (n m : Nat) : Rx := .seq (rxRep a n) (rxUpTo a (m - n))

/-- Character class `["\x27]`. -/
def clsQuote : Rx := .cls (fun c => c = '"' || c = '\'')

/-- Character class `[^"\x27]`. -/
def clsNotQuote : Rx := .cls (fun c => c ≠ '"' && c ≠ '\'')

/-- Character class `\s`. -/
def clsWs : Rx := .cls isPyWs

/-- Character class `[^\s]`. -/
def clsNotWs : Rx := .cls (fun c => !isPyWs c)

/-- Character class `[^\s"\x27]`. -/
def clsNotWsQuote : Rx := .cls (fun c => !isPyWs c && c ≠ '"' && c ≠ '\'')

/-- Character class `[A-Za-z0-9]`. -/
def clsAlnum : Rx := .cls (fun c => c.isAlpha || c.isDigit)

/-- Character class `[0-9]`. -/
def clsDigit : Rx := .cls Char.isDigit

/-- Character class `[A-Za-z]`. -/
def clsAlpha : Rx := .cls Char.isAlpha

/-- Character class `[_-]`. -/
def clsDashUnd : Rx := .cls (fun c => c = '_' || c = '-')

/-- Hexadecimal digit. -/
def isHexChar (c : Char) : Bool :=
  c.isDigit || ('a' ≤ c && c ≤ 'f') || ('A' ≤ c && c ≤ 'F')

/-- Common tail `\s*=\s*["\x27][^"\x27]+["\x27]` of the keyword patterns. -/
def rxEqTail : Rx :=
  rxSeqs [Rx.star clsWs, Rx.lit '=', Rx.star clsWs, clsQuote,
          Rx.plus clsNotQuote, clsQuote]

/-- Keyword pattern `(?i)(kw1|kw2|...)\s*=\s*["\x27][^"\x27]+["\x27]`. -/
def rxKwEq (kws : List String) : Rx :=
  .seq (rxAlts (kws.map rxStrCI)) rxEqTail

/-- Keyword with an optional `[_-]` between two case-insensitive
parts, e.g. `api[_-]?key`. -/
def rxKw2 (a b : String) : Rx := rxSeqs [rxStrCI a, Rx.opt clsDashUnd, rxStrCI b]

/-- An IPv4 octet `(25[0-5]|2[0-4][0-9]|[01]?[0-9][0-9]?)`. -/
def rxOctet : Rx :=
  rxAlts [.seq (rxStr "25") (.cls (fun c => '0' ≤ c && c ≤ '5')),
          rxSeqs [rxStr "2", .cls (fun c => '0' ≤ c && c ≤ '4'), clsDigit],
          rxSeqs [Rx.opt (.cls (fun c => c = '0' || c = '1')), clsDigit,
                  Rx.opt clsDigit]]

/-- The pattern table of `HardcodedVisitor.__init__` (`self.patterns`),
in dictionary insertion order; each Python regex is transcribed
construct by construct. -/
def hardcodedPatterns : List (String × List Rx) :=
  [("database_connection",
    [.seq (rxAlts (["mysql", "postgresql", "sqlite", "mongodb", "redis",
        "oracle", "mssql"].map rxStrCI)) (.seq (rxStr "://") (Rx.plus clsNotWs)),
     rxKwEq ["server"],
     rxKwEq ["database"],
     rxKwEq ["host"],
     rxKwEq ["dsn", "data_source"],
     rxKwEq ["connection_string"]]),
   ("credentials",
    [rxKwEq ["password", "pwd", "pass", "passwd"],
     rxKwEq ["username", "user", "uid", "login"],
     rxKwEq ["secret", "token", "key", "auth"],
     rxKwEq ["client_secret", "api_secret"],
     rxKwEq ["private_key", "public_key"]]),
   ("api_key",
    [.seq (rxAlts [rxKw2 "api" "key", rxStrCI "apikey"]) rxEqTail,
     .seq (rxAlts [rxKw2 "access" "token", rxStrCI "accesstoken"]) rxEqTail,
     .seq (rxAlts [rxKw2 "bearer" "token", rxStrCI "bearertoken"]) rxEqTail,
     .seq (rxAlts [rxKw2 "oauth" "token", rxKw2 "refresh" "token"]) rxEqTail,
     rxSeqs [clsQuote, rxAtLeast clsAlnum 32, clsQuote],
     rxSeqs [clsQuote, rxStr "sk-", rxAtLeast clsAlnum 32, clsQuote],
     rxSeqs [clsQuote,
       rxAtLeast (.cls (fun c => c.isAlpha || c.isDigit || c = '+' || c = '/')) 40,
       rxUpTo (Rx.lit '=') 2, clsQuote]]),
   ("url_endpoint",
    [rxSeqs [rxStr "http", Rx.opt (Rx.lit 's'), rxStr "://", Rx.plus clsNotWsQuote],
     rxSeqs [rxAlts (["endpoint", "url", "uri", "base_url"].map rxStrCI),
       Rx.star clsWs, Rx.lit '=', Rx.star clsWs, clsQuote, rxStrCI "http",
       Rx.opt (Rx.litCI 's'), rxStr "://", Rx.plus clsNotQuote, clsQuote],
     .seq (.seq (rxAlts [rxStrCI "webhook", rxStrCI "callback"]) (rxStrCI "_url"))
       rxEqTail,
     rxSeqs [rxStr "ftp://", Rx.plus clsNotWsQuote],
     rxSeqs [rxStr "sftp://", Rx.plus clsNotWsQuote]]),
   ("file_path",
    [rxSeqs [clsQuote, .cls (fun c => 'C' ≤ c && c ≤ 'Z'), rxStr ":", Rx.lit '\\',
       Rx.star clsNotQuote, clsQuote],
     rxSeqs [clsQuote, Rx.lit '/', Rx.star clsNotQuote, clsQuote],
     rxKwEq ["path", "file", "dir", "directory", "folder"],
     rxSeqs [clsQuote, Rx.star clsNotQuote, Rx.lit '.',
       rxAlts (["log", "config", "conf", "ini", "json", "xml", "yaml", "yml",
         "cert", "key", "pem"].map rxStr), clsQuote],
     rxSeqs [clsQuote, Rx.star clsNotQuote,
       rxAlts (["/var", "/tmp", "/home", "/usr", "/opt"].map rxStr),
       Rx.star clsNotQuote, clsQuote]]),
   ("email_address",
    [rxSeqs [clsQuote,
       Rx.plus (.cls (fun c => c.isAlpha || c.isDigit || c = '.' || c = '_' ||
         c = '%' || c = '+' || c = '-')),
       Rx.lit '@',
       Rx.plus (.cls (fun c => c.isAlpha || c.isDigit || c = '.' || c = '-')),
       Rx.lit '.', rxAtLeast clsAlpha 2, clsQuote]]),
   ("ip_address",
    [rxSeqs [clsQuote, rxRep (.seq rxOctet (Rx.lit '.')) 3, rxOctet, clsQuote],
     rxSeqs [clsQuote, Rx.plus (.cls (fun c => isHexChar c || c = ':')),
       rxStr "::", Rx.star (.cls (fun c => isHexChar c || c = ':')), clsQuote]]),
   ("port_number",
    [rxSeqs [rxStrCI "port", Rx.star clsWs, Rx.lit '=', Rx.star clsWs,
       Rx.opt clsQuote, rxRange clsDigit 1 5, Rx.opt clsQuote]]),
   ("financial_data",
    [.seq (rxAlts [rxKw2 "account" "number", rxKw2 "acct" "num"]) rxEqTail,
     .seq (rxAlts [rxKw2 "routing" "number", rxKw2 "aba" "number"]) rxEqTail,
     .seq (rxAlts [rxKw2 "swift" "code", rxKw2 "bic" "code"]) rxEqTail,
     .seq (rxAlts [rxStrCI "iban", rxKw2 "sort" "code"]) rxEqTail,
     rxSeqs [clsQuote, rxRange clsDigit 10 20, clsQuote]]),
   ("crypto_data",
    [.seq (rxAlts [rxKw2 "private" "key", rxStrCI "mnemonic",
       rxKw2 "seed" "phrase"]) rxEqTail,
     rxSeqs [clsQuote, .cls (fun c => c = '1' || c = '3'),
       rxRange (.cls (fun c =>
         ('a' ≤ c && c ≤ 'k') || ('m' ≤ c && c ≤ 'z') ||
         ('A' ≤ c && c ≤ 'H') || ('J' ≤ c && c ≤ 'N') ||
         ('P' ≤ c && c ≤ 'Z') || ('1' ≤ c && c ≤ '9'))) 25 34, clsQuote],
     rxSeqs [clsQuote, rxStr "0x", rxRep (.cls isHexChar) 40, clsQuote]])]

/-- The suspicious variable-name table of `HardcodedVisitor.__init__`
(`self.suspicious_var_names`), in dictionary insertion order. -/
def suspiciousVarNames : List (String × List String) :=
  [("database_connection",
    ["db_url", "database_url", "connection_string", "db_connection", "dsn",
     "conn_str"]),
   ("credentials",
    ["password", "pwd", "pass", "username", "user", "secret", "auth", "login",
     "passwd"]),
   ("api_key",
    ["api_key", "apikey", "access_token", "token", "bearer_token",
     "oauth_token", "client_secret"]),
   ("url_endpoint",
    ["endpoint", "url", "uri", "base_url", "api_url", "webhook_url",
     "callback_url"]),
   ("file_path",
    ["file_path", "filepath", "path", "directory", "dir", "config_path",
     "log_path", "cert_path"]),
   ("email_address",
    ["email", "email_address", "sender", "recipient", "from_email", "to_email"]),
   ("ip_address",
    ["ip", "ip_address", "host", "server", "hostname", "server_ip"]),
   ("port_number",
    ["port", "port_number", "server_port", "listen_port"]),
   ("financial_data",
    ["account_number", "account_num", "routing_number", "swift_code", "iban",
     "sort_code"]),
   ("crypto_data",
    ["private_key", "wallet_address", "mnemonic", "seed_phrase", "btc_address",
     "eth_address"])]

/-- State of the Hardcoded-Value Detector (`hardcoded.py`, class
`HardcodedVisitor`): identities of processed nodes and the findings
list. -/
structure HardState where
  processedNodes : List Nat := []
  findings : List Finding := []
deriving Repr

/-- Double underscore occurs somewhere in the character list. -/
def hasDoubleUnderscore : List Char → Bool
  | '_' :: '_' :: _ => true
  | _ :: rest => hasDoubleUnderscore rest
  | [] => false

/-- A nonempty digit group with optional single underscores strictly
between digits, as accepted by Python `int()` / `float()`. -/
def validUnderscoreDigits (cs : List Char) : Bool :=
  !cs.isEmpty && cs.head? ≠ some '_' && cs.getLast? ≠ some '_' &&
    cs.all (fun c => c.isDigit || c = '_') && !hasDoubleUnderscore cs

/-- Numeric value of a digit group, ignoring underscores. -/
def digitsVal (cs : List Char) : Nat :=
  (cs.filter Char.isDigit).foldl (fun a c => a * 10 + (c.toNat - 48)) 0

/-- Python `int(token)` on a numeric token: optional sign then decimal
digits with underscores; any other form (hexadecimal, octal, binary,
stray characters) raises `ValueError`, modelled as `none`.  Leading and
trailing whitespace, which `int()` would also strip, never occurs in
libcst tokens. -/
def pyIntParse (s : String) : Option Int :=
  let p : Int × List Char :=
    match s.toList with
    | '+' :: r => (1, r)
    | '-' :: r => (-1, r)
    | r => (1, r)
  if validUnderscoreDigits p.2 then some (p.1 * (digitsVal p.2 : Int)) else none

/-- Split a character list at the first `e`/`E`, for float exponents. -/
def splitOnE : List Char → List Char × Option (List Char)
  | [] => ([], none)
  | c :: rest =>
    if c = 'e' || c = 'E' then ([], some rest)
    else
      let p := splitOnE rest
      (c :: p.1, p.2)

/-- Split a character list at the first `.`, for float fractions. -/
def splitOnDot : List Char → List Char × Option (List Char)
  | [] => ([], none)
  | c :: rest =>
    if c = '.' then ([], some rest)
    else
      let p := splitOnDot rest
      (c :: p.1, p.2)

/-- Optional sign prefix. -/
def stripSign : List Char → Int × List Char
  | '+' :: r => (1, r)
  | '-' :: r => (-1, r)
  | r => (1, r)

/-- Exact decimal number `num / 10 ^ exp`: the value domain of parsed
numeric tokens.  A float literal denotes the IEEE-754 binary64 nearest
to this exact decimal value (CPython `float()` is correctly rounded,
ties to even); the only comparison the detector performs on the rounded
double is membership in the safe set 0 / 1 / -1, which `floatSafeNumber`
decides from the exact value via the closed rounding intervals of `0.0`,
`1.0` and `-1.0`. -/
structure Dec10 where
  num : Int
  exp : Nat
deriving DecidableEq, Repr

/-- The integer `i` as a decimal number. -/
def Dec10.ofInt (i : Int) : Dec10 := ⟨i, 0⟩

/-- Equality of a decimal number with an integer:
`num / 10 ^ exp = k ↔ num = k * 10 ^ exp`. -/
def Dec10.eqInt (d : Dec10) (k : Int) : Bool :=
  d.num = k * (10 : Int) ^ d.exp

/-- Python `float(token)` on a numeric token, with the exact decimal
value of the literal. -/
def pyFloatParse (s : String) : Option Dec10 :=
  let sgn := stripSign s.toList
  let me := splitOnE sgn.2
  let ifr := splitOnDot me.1
  let intPart := ifr.1
  let intOk := intPart.isEmpty || validUnderscoreDigits intPart
  let mantissa? : Option Dec10 :=
    match ifr.2 with
    | none =>
      if validUnderscoreDigits intPart then
        some ⟨(digitsVal intPart : Int), 0⟩
      else none
    | some fracPart =>
      if intOk && (fracPart.isEmpty || validUnderscoreDigits fracPart) &&
          !(intPart.isEmpty && fracPart.isEmpty) then
        let fl := (fracPart.filter Char.isDigit).length
        some ⟨((digitsVal intPart * 10 ^ fl + digitsVal fracPart : Nat) : Int), fl⟩
      else none
  match mantissa?, me.2 with
  | none, _ => none
  | some m, none => some ⟨sgn.1 * m.num, m.exp⟩
  | some m, some expPart =>
    let es := stripSign expPart
    if validUnderscoreDigits es.2 then
      let e := digitsVal es.2
      if es.1 ≥ 0 then some ⟨sgn.1 * (m.num * (10 : Int) ^ e), m.exp⟩
      else some ⟨sgn.1 * m.num, m.exp + e⟩
    else none

/-- The safe-number allow-set `common_safe_numbers = {0, 1, -1}`
(Python `in` compares by numeric value, so `0.0` and `1.0` are safe). -/
def isCommonSafeNumber (v : Dec10) : Bool :=
  v.eqInt 0 || v.eqInt 1 || v.eqInt (-1)

/-- Whether the exact decimal value `num / 10 ^ exp` rounds, under
IEEE-754 binary64 round-to-nearest ties-to-even (the rounding performed
by `float(token)`), to exactly `0.0` or `-0.0` (which compare equal to
the int `0`).  Zero attracts precisely the reals of magnitude at most
`2 ^ (-1075)`, half the smallest subnormal `2 ^ (-1074)`; the half-way
tie itself falls to the even neighbour, which is zero.  The inequality
is the interval test cleared of denominators. -/
def dec10RoundsTo0 (d : Dec10) : Bool :=
  d.num.natAbs * 2 ^ 1075 ≤ 10 ^ d.exp

/-- Whether the exact decimal value rounds to exactly `1.0`.  The
rounding interval of `1.0` is the closed `[1 - 2 ^ (-54), 1 + 2 ^ (-53)]`:
the neighbour below is `1 - 2 ^ (-53)` (ulp `2 ^ (-53)` in the binade
below 1) and the neighbour above is `1 + 2 ^ (-52)`, both with odd
significands, so both half-way ties fall to the even `1.0`.  The two
inequalities are the interval test cleared of denominators. -/
def dec10RoundsTo1 (d : Dec10) : Bool :=
  (10 : Int) ^ d.exp * (2 ^ 54 - 1) ≤ d.num * 2 ^ 54 &&
    d.num * 2 ^ 53 ≤ (10 : Int) ^ d.exp * (2 ^ 53 + 1)

/-- Whether the exact decimal value rounds to exactly `-1.0`: the
mirror image `[-1 - 2 ^ (-53), -1 + 2 ^ (-54)]` of the `1.0` interval. -/
def dec10RoundsToNeg1 (d : Dec10) : Bool :=
  -((10 : Int) ^ d.exp * (2 ^ 53 + 1)) ≤ d.num * 2 ^ 53 &&
    d.num * 2 ^ 54 ≤ -((10 : Int) ^ d.exp * (2 ^ 54 - 1))

/-- `float(token) in common_safe_numbers`: the runtime float obtained by
rounding the exact token value is `0.0`, `-0.0`, `1.0` or `-1.0` (the
only doubles that compare equal to a member of `{0, 1, -1}`). -/
def floatSafeNumber (d : Dec10) : Bool :=
  dec10RoundsTo0 d || dec10RoundsTo1 d || dec10RoundsToNeg1 d

/-- `HardcodedVisitor._get_default_severity`: every category defaults to
`CRITICAL`. -/
def getDefaultSeverity (_category : String) : Severity := Severity.CRITICAL

/-- `HardcodedVisitor._get_financial_severity`: every magic number is
`CRITICAL`. -/
def getFinancialSeverity : Severity := Severity.CRITICAL

/-- Last `n` characters of a string (Python `s[-n:]`). -/
def strTakeLast (s : String) (n : Nat) : String :=
  ⟨(s.toList.reverse.take n).reverse⟩

/-- `HardcodedVisitor._sanitize_value_for_display`: mask the middle of
credential/API-key values, keeping the first and last two characters. -/
def sanitizeValueForDisplay (value category : String) : String :=
  if category = "credentials" || category = "api_key" then
    if value.length > 4 then
      strTake value 2 ++ String.mk (List.replicate (value.length - 4) '*') ++
        strTakeLast value 2
    else String.mk (List.replicate value.length '*')
  else value

/-- Python `category.replace('_', ' ')`. -/
def underscoreToSpace (s : String) : String :=
  (⟨s.toList.map (fun c => if c = '_' then ' ' else c)⟩ : String)

/-- `HardcodedVisitor._create_hardcoded_finding`.  The source computes
`display_value = _sanitize_value_for_display(value, category)` and then
never uses it: the emitted finding carries the raw value in
`extra_context['detected_value']` and the raw extracted snippet. -/
def createHardcodedFinding (env : VisitorEnv) (s : HardState) (nid : Nat)
    (category value : String) (varName : Option String)
    (severityArg : Option Severity) : HardState :=
  let position := (getPosition env nid).getD (1, 0)
  let rsn : Severity × String × Option String × Option String :=
    match env.ruleLoader.getRule "hardcoded" category with
    | none =>
      (severityArg.getD (getDefaultSeverity category),
       "hardcoded " ++ underscoreToSpace category,
       some ("Detected hardcoded " ++ underscoreToSpace category ++ ": " ++
         strTake value 50 ++ "..."),
       some ("hardcoded." ++ category))
    | some rule =>
      (severityArg.getD rule.defaultSeverity, rule.mutation, rule.notes,
       some rule.ruleId)
  let fd : Finding :=
    { filePath := env.filePath
      lineNumber := position.1
      columnOffset := position.2
      library := "hardcoded"
      functionName := category
      mutationType := rsn.2.1
      severity := rsn.1
      codeSnippet := extractCodeSnippet env nid position.1
      notes := rsn.2.2.1
      ruleId := rsn.2.2.2
      extraContext := [("detected_value", CtxVal.str
          (if value.length > 100 then strTake value 100 ++ "..." else value)),
        ("category", CtxVal.str category),
        ("variable_name", match varName with
          | some v => CtxVal.str v
          | none => CtxVal.pynone)] }
  { s with findings := s.findings ++ [fd] }

/-- `HardcodedVisitor._is_likely_hardcoded_value`: category-specific
plausibility filters for the variable-name heuristic. -/
def isLikelyHardcodedValue (value category : String) : Bool :=
  if category = "credentials" then
    !(["password", "username", "secret", "token", "key", "placeholder",
       "example"].contains (strLower value)) && value.length > 3
  else if category = "file_path" then
    (strContains value "/" || strContains value "\\") &&
      !(strStartsWith value "http" || strStartsWith value "ftp")
  else if category = "url_endpoint" then
    (strStartsWith value "http://" || strStartsWith value "https://") &&
      value.length > 10
  else if category = "email_address" then
    strContains value "@" &&
      strContains (((splitOnChar value '@').getLast?).getD "") "."
  else if category = "ip_address" then
    let parts := splitOnChar value '.'
    parts.length = 4 && parts.all (fun p =>
      p ≠ "" && p.toList.all Char.isDigit && digitsVal p.toList ≤ 255)
  else true

/-- `HardcodedVisitor._check_hardcoded_string`: skip short/trivial
strings, try the pattern table first (first matching category wins),
then fall back to the suspicious-variable-name heuristic filtered by the
plausibility check. -/
def checkHardcodedString (env : VisitorEnv) (s : HardState) (nid : Nat)
    (varName : Option String) (stringValue : String) : HardState :=
  if stringValue.length < 3 ||
      ["", "none", "null", "true", "false"].contains (strLower stringValue) then s
  else
    match (hardcodedPatterns.find? (fun cp =>
        cp.2.any (fun r => rxSearch r stringValue))).map (fun cp => cp.1) with
    | some category => createHardcodedFinding env s nid category stringValue varName none
    | none =>
      match varName with
      | none => s
      | some vn =>
        match (suspiciousVarNames.find? (fun cp =>
            cp.2.any (fun sub => strContains vn sub) &&
              isLikelyHardcodedValue stringValue cp.1)).map (fun cp => cp.1) with
        | some category =>
          createHardcodedFinding env s nid category stringValue varName none
        | none => s

/-- `HardcodedVisitor._check_magic_number`: parse the token with the
runtime `int()`/`float()` (a `ValueError` is swallowed), skip the safe
set — membership of an exact int, respectively of the IEEE double the
float token rounds to, in `{0, 1, -1}` — and emit a `magic_number`
finding at the financial severity.  The displayed value string is
Python `str(value)`; for floats the token text is kept as its rendering
(no claim inspects this field). -/
def checkMagicNumber (env : VisitorEnv) (s : HardState) (nid : Nat)
    (varName : Option String) (valueNode : Expr) : HardState :=
  let parsed : Option (Bool × String) :=
    match valueNode with
    | .IntegerLit _ t =>
      (pyIntParse t).map (fun i => (isCommonSafeNumber (Dec10.ofInt i), toString i))
    | .FloatLit _ t => (pyFloatParse t).map (fun v => (floatSafeNumber v, t))
    | _ => none
  match parsed with
  | none => s
  | some v =>
    if v.1 then s
    else createHardcodedFinding env s nid "magic_number" v.2 varName
      (some getFinancialSeverity)

mutual
/-- `HardcodedVisitor._extract_binary_string_concatenation`: join the
string values of a `+`-concatenation when both sides are strings. -/
def extractBinaryStringConcatenation : Expr → Option String
  | .BinaryOperation _ l .add r =>
    (match binConcatPart l, binConcatPart r with
     | some a, some b => some (a ++ b)
     | _, _ => none)
  | _ => none

/-- Helper `extract_string_from_expr` of
`_extract_binary_string_concatenation`. -/
def binConcatPart : Expr → Option String
  | .SimpleString n t => extractStringValue (.SimpleString n t)
  | .ConcatenatedString n l r => extractStringValue (.ConcatenatedString n l r)
  | .BinaryOperation n l op r =>
    extractBinaryStringConcatenation (.BinaryOperation n l op r)
  | _ => none
end

/-- `HardcodedVisitor.visit_Assign`: check string-valued and
`+`-concatenation assignments for hardcoded values and numeric
assignments for magic numbers.  Only numeric right-hand sides are added
to the processed-node set; string right-hand sides are not. -/
def hardVisitAssignNode (env : VisitorEnv) (s : HardState) (sid : Nat)
    (targets : List Expr) (value : Expr) : HardState :=
  match targets with
  | [.Name _ tname] =>
    let varName := strLower tname
    (match value with
     | .SimpleString n t =>
       (match extractStringValue (.SimpleString n t) with
        | some sv =>
          if sv ≠ "" then checkHardcodedString env s sid (some varName) sv else s
        | none => s)
     | .ConcatenatedString n l r =>
       (match extractStringValue (.ConcatenatedString n l r) with
        | some sv =>
          if sv ≠ "" then checkHardcodedString env s sid (some varName) sv else s
        | none => s)
     | .BinaryOperation n l op r =>
       (match extractBinaryStringConcatenation (.BinaryOperation n l op r) with
        | some sv =>
          if sv ≠ "" then checkHardcodedString env s sid (some varName) sv else s
        | none => s)
     | .IntegerLit n t =>
       if s.processedNodes.contains n then s
       else checkMagicNumber env { s with processedNodes := s.processedNodes ++ [n] }
         sid (some varName) (.IntegerLit n t)
     | .FloatLit n t =>
       if s.processedNodes.contains n then s
       else checkMagicNumber env { s with processedNodes := s.processedNodes ++ [n] }
         sid (some varName) (.FloatLit n t)
     | _ => s)
  | _ => s

/-- `HardcodedVisitor.visit_SimpleString`: check a string literal not
already processed (this handler itself does not add the node to the
processed set). -/
def hardVisitSimpleStringNode (env : VisitorEnv) (s : HardState)
    (n : Nat) (t : String) : HardState :=
  if s.processedNodes.contains n then s
  else
    match extractStringValue (.SimpleString n t) with
    | some sv => if sv ≠ "" then checkHardcodedString env s n none sv else s
    | none => s

/-- `HardcodedVisitor.visit_Integer`. -/
def hardVisitIntegerNode (env : VisitorEnv) (s : HardState)
    (n : Nat) (t : String) : HardState :=
  if s.processedNodes.contains n then s
  else checkMagicNumber env { s with processedNodes := s.processedNodes ++ [n] }
    n none (.IntegerLit n t)

/-- `HardcodedVisitor.visit_Float`. -/
def hardVisitFloatNode (env : VisitorEnv) (s : HardState)
    (n : Nat) (t : String) : HardState :=
  if s.processedNodes.contains n then s
  else checkMagicNumber env { s with processedNodes := s.processedNodes ++ [n] }
    n none (.FloatLit n t)

/-- `HardcodedVisitor.visit_ConcatenatedString`: mark the node processed
and check its joined value. -/
def hardVisitConcatNode (env : VisitorEnv) (s : HardState)
    (n : Nat) (l r : Expr) : HardState :=
  if s.processedNodes.contains n then s
  else
    let s0 := { s with processedNodes := s.processedNodes ++ [n] }
    match extractStringValue (.ConcatenatedString n l r) with
    | some sv => if sv ≠ "" then checkHardcodedString env s0 n none sv else s0
    | none => s0

mutual
/-- Pre-order traversal of the Hardcoded-Value Detector over
expressions (f-strings, which the detector also handles, do not occur in
the embedded expression grammar). -/
def hardVisitExpr (env : VisitorEnv) (s : HardState) : Expr → HardState
  | .Call _ f args => hardVisitArgs env (hardVisitExpr env s f) args
  | .Attribute _ v _ => hardVisitExpr env s v
  | .Subscript _ v sl => hardVisitExprList env (hardVisitExpr env s v) sl
  | .SimpleString n t => hardVisitSimpleStringNode env s n t
  | .ConcatenatedString n l r =>
    hardVisitExpr env (hardVisitExpr env (hardVisitConcatNode env s n l r) l) r
  | .IntegerLit n t => hardVisitIntegerNode env s n t
  | .FloatLit n t => hardVisitFloatNode env s n t
  | .BinaryOperation _ l _ r => hardVisitExpr env (hardVisitExpr env s l) r
  | .Other _ ch => hardVisitExprList env s ch
  | .Name _ _ => s

/-- Traversal of the Hardcoded-Value Detector over call arguments. -/
def hardVisitArgs (env : VisitorEnv) (s : HardState) :
    List (Option String × Expr) → HardState
  | [] => s
  | (_, e) :: rest => hardVisitArgs env (hardVisitExpr env s e) rest

/-- Traversal of the Hardcoded-Value Detector over an expression list. -/
def hardVisitExprList (env : VisitorEnv) (s : HardState) : List Expr → HardState
  | [] => s
  | e :: rest => hardVisitExprList env (hardVisitExpr env s e) rest
end

/-- Hardcoded-Value Detector traversal over a small statement. -/
def hardVisitSmallStmt (env : VisitorEnv) (s : HardState) : SmallStmt → HardState
  | .Assign sid targets value =>
    let s1 := hardVisitAssignNode env s sid targets value
    hardVisitExpr env (hardVisitExprList env s1 targets) value
  | .ExprStmt _ v => hardVisitExpr env s v
  | .OtherSmall _ ch => hardVisitExprList env s ch

/-- Hardcoded-Value Detector traversal over a statement line. -/
def hardVisitLine (env : VisitorEnv) (s : HardState) (l : StmtLine) : HardState :=
  l.body.foldl (hardVisitSmallStmt env) s

/-- Full run of the Hardcoded-Value Detector over a module. -/
def hardcodedRun (env : VisitorEnv) (m : PyModule) : HardState :=
  m.foldl (hardVisitLine env) {}

/-- Outcome of running one detector inside the orchestrator's failure
boundary (`master.py`, `MasterVisitor.analyze`): either the traversal
completed with the visitor's findings, or it raised after the visitor
had already appended some findings to its own list. -/
inductive DetectorOutcome where
  | ok (findings : List Finding)
  | failed (partialFindings : List Finding)
deriving DecidableEq, Repr

/-- `MasterVisitor.analyze`'s merge loop: each detector runs in its own
`try`; on success its findings are extended into the result, on an
exception the `except` branch `continue`s without collecting anything,
so the failing detector's partial findings are dropped while every
remaining detector still runs. -/
def masterMerge (outcomes : List DetectorOutcome) : List Finding :=
  outcomes.foldl
    (fun acc o =>
      match o with
      | .ok fs => acc ++ fs
      | .failed _ => acc) []

/-- The orchestrator run over the four concrete detectors when none of
them raises: the concatenation of their findings in the fixed order
mutation, chain, sql, hardcoded. -/
def masterAnalyze (env : VisitorEnv) (m : PyModule) : List Finding :=
  masterMerge [.ok (mutationRun env m).findings,
               .ok (chainRun env m).findings,
               .ok (sqlRun env m).findings,
               .ok (hardcodedRun env m).findings]

/-- Alias pattern of the pandas bundle, `^(pd|pandas)$` as a matcher. -/
def pandasAliasMatch (s : String) : Bool := s = "pd" || s = "pandas"

/-- Alias pattern of the sql bundle, `^(sql|SQL)$` as a matcher. -/
def sqlAliasMatch (s : String) : Bool := s = "sql" || s = "SQL"

/-- Sample pandas rules for `drop` (with the `inplace=True` escalation
check), `dropna` and `drop_duplicates`, parametric in the default and
escalated severities. -/
def mkPandasRules (dsev esc : Severity) : List Rule :=
  [{ func := "drop", mutation := "row/col drop", defaultSeverity := dsev,
     extraChecks := some ⟨some ⟨"inplace", .pybool true, some esc⟩⟩ },
   { func := "dropna", mutation := "row drop", defaultSeverity := dsev },
   { func := "drop_duplicates", mutation := "duplicate row drop",
     defaultSeverity := dsev }]

/-- Sample catalogue with a single pandas bundle. -/
def mkPandasLoader (dsev esc : Severity) : RuleLoader :=
  ⟨[{ meta := { library := "pandas", aliasMatch := pandasAliasMatch },
      rules := mkPandasRules dsev esc }]⟩

/-- Sample catalogue with an sql bundle holding the ten mutation
keywords, parametric in the DELETE and INSERT severities. -/
def mkSqlLoader (delSev insSev : Severity) : RuleLoader :=
  ⟨[{ meta := { library := "sql", aliasMatch := sqlAliasMatch },
      rules := [{ func := "DELETE", mutation := "data deletion",
                  defaultSeverity := delSev },
                { func := "INSERT", mutation := "data insertion",
                  defaultSeverity := insSev },
                { func := "UPDATE", mutation := "data update",
                  defaultSeverity := Severity.HIGH },
                { func := "DROP", mutation := "schema/data drop",
                  defaultSeverity := Severity.CRITICAL },
                { func := "TRUNCATE", mutation := "data truncation",
                  defaultSeverity := Severity.CRITICAL },
                { func := "ALTER", mutation := "schema modification",
                  defaultSeverity := Severity.HIGH },
                { func := "CREATE", mutation := "schema creation",
                  defaultSeverity := Severity.MEDIUM },
                { func := "MERGE", mutation := "data merge",
                  defaultSeverity := Severity.HIGH },
                { func := "UPSERT", mutation := "data upsert",
                  defaultSeverity := Severity.HIGH },
                { func := "REPLACE", mutation := "data replacement",
                  defaultSeverity := Severity.HIGH }] }]⟩

/-- Empty rule catalogue. -/
def emptyLoader : RuleLoader := ⟨[]⟩

/-- Analysis context of a file with `import pandas as pd`. -/
def pandasCtx : AnalysisContext :=
  { aliases := [("pd", "pandas")], imports := ["pandas"] }

/-- Analysis context of a file with no imports at all. -/
def emptyCtx : AnalysisContext := { aliases := [], imports := [] }

/-- Environment builder for the concrete examples: every node is
reported at position `(1, 0)` and the file consists of the given single
source line. -/
def mkEnv (L : RuleLoader) (ctx : AnalysisContext) (line : String) : VisitorEnv :=
  { filePath := "example.py", ruleLoader := L, context := ctx,
    posMeta := fun _ => some ⟨1, 0, 1, 0⟩, sourceLines := [line] }

/-- The statement `df = pd.DataFrame()`. -/
def dfAssignStmt : SmallStmt :=
  .Assign 1 [.Name 2 "df"]
    (.Call 3 (.Attribute 4 (.Name 5 "pd") "DataFrame") [])

/-- The call `df.drop('a', axis=1)`. -/
def dfDropCall : Expr :=
  .Call 10 (.Attribute 11 (.Name 12 "df") "drop")
    [(none, .SimpleString 13 "\x27a\x27"), (some "axis", .IntegerLit 14 "1")]

/-- The call `df.drop('a', axis=1, inplace=True)`. -/
def dfDropInplaceCall : Expr :=
  .Call 10 (.Attribute 11 (.Name 12 "df") "drop")
    [(none, .SimpleString 13 "\x27a\x27"), (some "axis", .IntegerLit 14 "1"),
     (some "inplace", .Name 15 "True")]

/-- The chained call `df.drop('a', axis=1).dropna().drop_duplicates()`. -/
def dfChainCall : Expr :=
  .Call 30 (.Attribute 31 (.Call 20 (.Attribute 21 dfDropCall "dropna") [])
    "drop_duplicates") []

/-- Module for the chain example: `df = pd.DataFrame()` followed by
`df.drop('a', axis=1).dropna().drop_duplicates()`. -/
def chainModule : PyModule :=
  [⟨100, [dfAssignStmt]⟩, ⟨101, [.ExprStmt 102 dfChainCall]⟩]

/-- Module for the single-drop example: `df = pd.DataFrame()` followed
by `df.drop('a', axis=1)`. -/
def dropModule : PyModule :=
  [⟨100, [dfAssignStmt]⟩, ⟨101, [.ExprStmt 102 dfDropCall]⟩]

/-- Module for the escalated drop example: `df = pd.DataFrame()`
followed by `df.drop('a', axis=1, inplace=True)`. -/
def dropInplaceModule : PyModule :=
  [⟨100, [dfAssignStmt]⟩, ⟨101, [.ExprStmt 102 dfDropInplaceCall]⟩]

/-- Module for the SQL example:
`cursor.execute("DELETE FROM users WHERE id = 1")`. -/
def sqlDeleteModule : PyModule :=
  [⟨100, [.ExprStmt 101 (.Call 10 (.Attribute 11 (.Name 12 "cursor") "execute")
    [(none, .SimpleString 13 "\"DELETE FROM users WHERE id = 1\"")])]⟩]

/-- Module for the two-keyword SQL example:
`cursor.execute("DELETE FROM users; INSERT INTO audit VALUES (1)")`. -/
def sqlTwoKeywordModule : PyModule :=
  [⟨100, [.ExprStmt 101 (.Call 10 (.Attribute 11 (.Name 12 "cursor") "execute")
    [(none,
      .SimpleString 13 "\"DELETE FROM users; INSERT INTO audit VALUES (1)\"")])]⟩]

/-- Module for the credential example: `password = "secret123"`. -/
def passwordModule : PyModule :=
  [⟨100, [.Assign 1 [.Name 2 "password"] (.SimpleString 3 "\"secret123\"")]⟩]

/-- Module for the double-report example: `url = "http://example.com/api"`. -/
def urlModule : PyModule :=
  [⟨100, [.Assign 1 [.Name 2 "url"] (.SimpleString 3 "\"http://example.com/api\"")]⟩]

/-- Module consisting of a single standalone integer literal
statement. -/
def intLitModule (text : String) : PyModule :=
  [⟨100, [.ExprStmt 101 (.IntegerLit 5 text)]⟩]

/-- Module with no imports and no string literals exercising the
receiver-name heuristic: the single statement `df[0].drop()`. -/
def heuristicModule : PyModule :=
  [⟨100, [.ExprStmt 101 (.Call 10
    (.Attribute 11 (.Subscript 12 (.Name 13 "df") [.IntegerLit 14 "0"]) "drop")
    [])]⟩]

mutual
/-- No string literal node (simple or concatenated) occurs in the
expression. -/
def noStringsExpr : Expr → Bool
  | .Name _ _ => true
  | .Attribute _ v _ => noStringsExpr v
  | .Call _ f args => noStringsExpr f && noStringsArgs args
  | .Subscript _ v sl => noStringsExpr v && noStringsList sl
  | .SimpleString _ _ => false
  | .ConcatenatedString _ _ _ => false
  | .IntegerLit _ _ => true
  | .FloatLit _ _ => true
  | .BinaryOperation _ l _ r => noStringsExpr l && noStringsExpr r
  | .Other _ ch => noStringsList ch

/-- String-freeness over call arguments. -/
def noStringsArgs : List (Option String × Expr) → Bool
  | [] => true
  | (_, e) :: rest => noStringsExpr e && noStringsArgs rest

/-- String-freeness over an expression list. -/
def noStringsList : List Expr → Bool
  | [] => true
  | e :: rest => noStringsExpr e && noStringsList rest
end

/-- String-freeness over a small statement. -/
def noStringsStmt : SmallStmt → Bool
  | .Assign _ targets value => noStringsList targets && noStringsExpr value
  | .ExprStmt _ v => noStringsExpr v
  | .OtherSmall _ ch => noStringsList ch

/-- String-freeness over a module. -/
def noStringsModule (m : PyModule) : Bool :=
  m.all (fun l => l.body.all noStringsStmt)

mutual
/-- Restriction under which the no-imports/zero-findings property is
provable: no string literals, every call's function expression is a
plain name, and every name is free of dots. -/
def plainExpr : Expr → Bool
  | .Name _ v => !strContains v "."
  | .Attribute _ v _ => plainExpr v
  | .Call _ f args =>
    (match f with
     | .Name _ v => !strContains v "."
     | _ => false) && plainArgs args
  | .Subscript _ v sl => plainExpr v && plainList sl
  | .SimpleString _ _ => false
  | .ConcatenatedString _ _ _ => false
  | .IntegerLit _ _ => true
  | .FloatLit _ _ => true
  | .BinaryOperation _ l _ r => plainExpr l && plainExpr r
  | .Other _ ch => plainList ch

/-- Plainness over call arguments. -/
def plainArgs : List (Option String × Expr) → Bool
  | [] => true
  | (_, e) :: rest => plainExpr e && plainArgs rest

/-- Plainness over an expression list. -/
def plainList : List Expr → Bool
  | [] => true
  | e :: rest => plainExpr e && plainList rest
end

/-- Plainness over a small statement. -/
def plainStmt : SmallStmt → Bool
  | .Assign _ targets value => plainList targets && plainExpr value
  | .ExprStmt _ v => plainExpr v
  | .OtherSmall _ ch => plainList ch

/-- Plainness over a module. -/
def plainModulePred (m : PyModule) : Bool :=
  m.all (fun l => l.body.all plainStmt)

/-- A chain link whose rule's extra check fires `CRITICAL` from the
`HIGH` floor (the escalation condition of
`ChainVisitor._process_chain_finding`). -/
def linkEscalatesCritical (env : VisitorEnv) (e : String × String × Expr) : Bool :=
  match env.ruleLoader.getRule e.1 e.2.1 with
  | some rule =>
    rule.extraChecks.isSome &&
      ((applyExtraChecks (argsOf e.2.2) rule Severity.HIGH).1 == Severity.CRITICAL)
  | none => false

/-- The magic-number emission condition for an integer token: the
runtime parse succeeds and the value is outside the safe set. -/
def magicIntEmitted (t : String) : Bool :=
  match pyIntParse t with
  | some v => !isCommonSafeNumber (Dec10.ofInt v)
  | none => false

/-- The magic-number emission condition for a float token: the runtime
parse succeeds and the double the token rounds to is outside the safe
set. -/
def magicFloatEmitted (t : String) : Bool :=
  match pyFloatParse t with
  | some v => !floatSafeNumber v
  | none => false

/-- Numeric value of a hexadecimal digit character. -/
def hexDigitVal (c : Char) : Nat :=
  if c.isDigit then c.toNat - 48
  else if 'a' ≤ c && c ≤ 'f' then c.toNat - 87
  else if 'A' ≤ c && c ≤ 'F' then c.toNat - 55
  else 0

/-- Digit-list value in a given base. -/
def digitsValBase (base : Nat) (cs : List Char) : Nat :=
  cs.foldl (fun a c => a * base + hexDigitVal c) 0

/-- Value of a Python *source* integer literal token (decimal,
hexadecimal `0x`, octal `0o`, binary `0b`, with underscores ignored in
the prefixed forms).  This is the number the literal denotes in the
scanned program, used to state claims about a literal's numeric value;
the runtime `int()` used by the detector is `pyIntParse`. -/
def intLitSourceValue (s : String) : Option Int :=
  match s.toList with
  | '0' :: c :: rest =>
    if c = 'x' || c = 'X' then
      let ds := rest.filter (fun d => d ≠ '_')
      if !ds.isEmpty && ds.all isHexChar then some ((digitsValBase 16 ds : Nat) : Int)
      else none
    else if c = 'o' || c = 'O' then
      let ds := rest.filter (fun d => d ≠ '_')
      if !ds.isEmpty && ds.all (fun d => '0' ≤ d && d ≤ '7') then
        some ((digitsValBase 8 ds : Nat) : Int)
      else none
    else if c = 'b' || c = 'B' then
      let ds := rest.filter (fun d => d ≠ '_')
      if !ds.isEmpty && ds.all (fun d => d = '0' || d = '1') then
        some ((digitsValBase 2 ds : Nat) : Int)
      else none
    else pyIntParse s
  | _ => pyIntParse s

/-- Findings contributed by one detector outcome to the orchestrator's
merge: only fully successful detectors contribute. -/
def DetectorOutcome.successFindings : DetectorOutcome → List Finding
  | .ok fs => fs
  | .failed _ => []

/-- A finding a partially-failed detector had already appended before
raising. -/
def c1PartialFinding : Finding :=
  { filePath := "a.py", lineNumber := 1, columnOffset := 0,
    library := "pandas", functionName := "drop", mutationType := "row/col drop",
    severity := Severity.MEDIUM, codeSnippet := "df.drop(0)" }

/-- A finding of a later, fully successful detector. -/
def c1OtherFinding : Finding :=
  { filePath := "a.py", lineNumber := 2, columnOffset := 0,
    library := "sql", functionName := "DELETE", mutationType := "data deletion",
    severity := Severity.CRITICAL, codeSnippet := "run(q)" }

/-- Environment of the chain/drop examples: pandas catalogue with
`drop` default `MEDIUM` escalating to `CRITICAL`, a file importing
pandas as `pd`. -/
def c2Env : VisitorEnv :=
  mkEnv (mkPandasLoader Severity.MEDIUM Severity.CRITICAL) pandasCtx "x = 1"

/-- Environment of the credential example (no catalogue rules). -/
def c8Env : VisitorEnv := mkEnv emptyLoader emptyCtx "password = \"secret123\""

/-- Environment of the double-report example. -/
def c7Env : VisitorEnv := mkEnv emptyLoader emptyCtx "url = \"http://example.com/api\""

/-- Environment of the no-imports heuristic example. -/
def heuristicEnv : VisitorEnv :=
  mkEnv (mkPandasLoader Severity.MEDIUM Severity.CRITICAL) emptyCtx "df[0].drop()"

/-- Environment of the boolean-indexing example: the source line
contains a `~` negation. -/
def c9Env : VisitorEnv := mkEnv emptyLoader emptyCtx "df2 = df[~mask]"

/-- Mutation state with `df` bound to pandas. -/
def c9St : MutState := { variableTypes := [("df", "pandas")] }

/-- Environment of the magic-number examples. -/
def c10Env : VisitorEnv := mkEnv emptyLoader emptyCtx "x"

/-- A module whose only call is a plain undotted name: `foo(1)`. -/
def plainCallModule : PyModule :=
  [⟨100, [.ExprStmt 101 (.Call 10 (.Name 11 "foo") [(none, .IntegerLit 12 "1")])]⟩]

/-- Environment for the plain-call example: empty catalogue, no
imports. -/
def plainEnv : VisitorEnv := mkEnv emptyLoader emptyCtx "foo(1)"

/-- A concrete one-link chain list for instantiating the chain-severity
theorem. -/
def c3ChainFns : List (String × String × Expr) := [("pandas", "drop", dfDropCall)]

/-- Merge loop of `MasterVisitor.analyze`, generalized over the
accumulator: only `ok` outcomes contribute their findings. -/
theorem masterMerge_foldl (outcomes : List DetectorOutcome) (acc : List Finding) :
    List.foldl
      (fun acc o =>
        match o with
        | DetectorOutcome.ok fs => acc ++ fs
        | DetectorOutcome.failed _ => acc) acc outcomes =
      acc ++ outcomes.flatMap DetectorOutcome.successFindings := by
  induction outcomes generalizing acc with
  | nil => simp
  | cons o rest ih =>
    cases o with
    | ok fs => simp [ih, DetectorOutcome.successFindings, List.append_assoc]
    | failed fs => simp [ih, DetectorOutcome.successFindings]

/-- Claim C1 — counterexample.  A detector that raises after appending
one finding contributes nothing to the merged output: the orchestrator
still runs the remaining detector (whose finding is kept), but the
failing detector's partial finding is dropped, contradicting the claim
that the merged output keeps it. -/
theorem C1_counterexample :
    masterMerge [.failed [c1PartialFinding], .ok [c1OtherFinding]] = [c1OtherFinding] ∧
      c1PartialFinding ∉
        masterMerge [.failed [c1PartialFinding], .ok [c1OtherFinding]] := by
  decide

/-- Claim C1 (amended).  When a detector raises during its traversal,
the Orchestrator still runs every remaining detector over the file, but
the merged output is exactly the concatenation of the findings of the
fully successful detectors: the failing detector's partial findings,
even those appended before the exception, are dropped. -/
theorem C1_merge_drops_failed_partials (outcomes : List DetectorOutcome) :
    masterMerge outcomes = outcomes.flatMap DetectorOutcome.successFindings := by
  simpa [masterMerge] using masterMerge_foldl outcomes []

/-- Claim C2 — counterexample.  On
`df = pd.DataFrame()` followed by
`df.drop('a', axis=1).dropna().drop_duplicates()`, the Chain Detector
reports one chain whose member functions are
`drop`, `dropna`, `drop_duplicates`; yet the Mutation Detector also
emits a finding for `drop`, the innermost member of that reported
chain, contradicting the claim that no chain member is also reported by
the Mutation Detector. -/
theorem C2_counterexample :
    (chainRun c2Env chainModule).findings.map
        (fun f => (dictGet? f.extraContext "chain_length",
                   dictGet? f.extraContext "functions")) =
      [(some (CtxVal.nat 3),
        some (CtxVal.strList ["drop", "dropna", "drop_duplicates"]))] ∧
      (mutationRun c2Env chainModule).findings.map
          (fun f => (f.library, f.functionName)) = [("pandas", "drop")] := by
  decide

/-- Claim C2 (amended).  For
`df.drop('a', axis=1).dropna().drop_duplicates()` with `df` bound to
pandas and all three functions having rules, the Chain Detector emits
exactly one finding with `chain_length = 3`; the Mutation Detector does
not report the two outer links of the chain (their receivers are calls,
which its resolution has no branch for), but it does additionally
report the chain's innermost call `df.drop(...)`. -/
theorem C2_amended :
    (chainRun c2Env chainModule).findings.map
        (fun f => (f.severity, dictGet? f.extraContext "chain_length")) =
      [(Severity.HIGH, some (CtxVal.nat 3))] ∧
      (mutationRun c2Env chainModule).findings.map
          (fun f => (f.library, f.functionName, f.mutationType)) =
        [("pandas", "drop", "row/col drop")] := by
  decide

/-- Claim C5.  For `df = pd.DataFrame(...)` followed by
`df.drop('a', axis=1)`, the Mutation Detector produces exactly one
finding, with library `pandas`, function `drop` and the drop rule's
default severity and empty extra context; with `inplace=True` added and
the rule's extra check naming that argument, the severity is the rule's
escalated severity and `matched_arg` records the argument name and
value. -/
theorem C5_mutation_drop_severity (dsev esc : Severity) :
    (mutationRun (mkEnv (mkPandasLoader dsev esc) pandasCtx "x = 1")
          dropModule).findings.map
        (fun f => (f.library, f.functionName, f.severity, f.extraContext)) =
      [("pandas", "drop", dsev, [])] ∧
      (mutationRun (mkEnv (mkPandasLoader dsev esc) pandasCtx "x = 1")
            dropInplaceModule).findings.map
          (fun f => (f.library, f.functionName, f.severity, f.extraContext)) =
        [("pandas", "drop", esc,
          [("matched_arg", CtxVal.matchedArg "inplace" (PyVal.pybool true))])] :=
  ⟨rfl, rfl⟩

/-- Claim C6.  For the literal `"DELETE FROM users WHERE id = 1"`
passed to a call appearing as an expression statement, the SQL-Literal
Detector emits exactly one finding, `DELETE` at the DELETE rule's
default severity; for a literal containing both `DELETE` and `INSERT`
once, exactly two findings, one per keyword. -/
theorem C6_sql_keyword_findings (delSev insSev : Severity) :
    (sqlRun (mkEnv (mkSqlLoader delSev insSev) emptyCtx "cursor.execute(q)")
          sqlDeleteModule).findings.map
        (fun f => (f.library, f.functionName, f.severity)) =
      [("sql", "DELETE", delSev)] ∧
      (sqlRun (mkEnv (mkSqlLoader delSev insSev) emptyCtx "cursor.execute(q)")
            sqlTwoKeywordModule).findings.map
          (fun f => (f.functionName, f.severity)) =
        [("DELETE", delSev), ("INSERT", insSev)] :=
  ⟨rfl, rfl⟩

/-- Claim C7.  On `url = "http://example.com/api"` the Hardcoded-Value
Detector reports the same string literal twice (once from
`visit_Assign`, once again from `visit_SimpleString`): `visit_Assign`
never adds string-valued right-hand sides to the seen-set, so the
standalone-literal visit is not suppressed, contradicting the
documented at-most-once processing. -/
theorem C7_assign_literal_double_reported :
    (hardcodedRun c7Env urlModule).findings.map
        (fun f => (f.functionName, dictGet? f.extraContext "detected_value")) =
      [("url_endpoint", some (CtxVal.str "http://example.com/api")),
       ("url_endpoint", some (CtxVal.str "http://example.com/api"))] ∧
      1 < (hardcodedRun c7Env urlModule).findings.length := by
  decide

/-- Claim C8.  On `password = "secret123"` exactly one Hardcoded-Value
finding is produced, category `credentials`, at `CRITICAL`; but the
value recorded in the finding is the raw `"secret123"`, while the
sanitizer would yield the masked `"se*****23"`: the source computes the
masked value into `display_value` and never uses it. -/
theorem C8_sanitized_value_unused :
    (hardcodedRun c8Env passwordModule).findings.map
        (fun f => (f.functionName, f.severity,
                   dictGet? f.extraContext "detected_value")) =
      [("credentials", Severity.CRITICAL, some (CtxVal.str "secret123"))] ∧
      sanitizeValueForDisplay "secret123" "credentials" = "se*****23" ∧
      sanitizeValueForDisplay "secret123" "credentials" ≠ "secret123" := by
  decide

/-- Claim C10 — counterexample.  The standalone literal `0x10` denotes
16, which is not in the allow-set, yet no `magic_number` finding is
produced: the detector parses tokens with `int()`, which rejects the
hexadecimal form, and the `ValueError` is swallowed.  A plain decimal
literal `42` is reported at `CRITICAL`. -/
theorem C10_counterexample :
    intLitSourceValue "0x10" = some 16 ∧
      isCommonSafeNumber (Dec10.ofInt 16) = false ∧
      (hardcodedRun c10Env (intLitModule "0x10")).findings = [] ∧
      (hardcodedRun c10Env (intLitModule "42")).findings.map
          (fun f => (f.functionName, f.severity)) =
        [("magic_number", Severity.CRITICAL)] := by
  decide

/-- Claim C4 — counterexample.  The module `df[0].drop()` contains no
string literals and is analyzed with an empty context (no recognized
imports), yet the Mutation Detector reports `(pandas, drop)` via the
receiver-name heuristic on the subscripted name `df`. -/
theorem C4_counterexample :
    emptyCtx.aliases = [] ∧ emptyCtx.imports = [] ∧
      noStringsModule heuristicModule = true ∧
      (mutationRun heuristicEnv heuristicModule).findings.map
          (fun f => (f.library, f.functionName)) = [("pandas", "drop")] := by
  decide

/-- Severity contribution of one link step of
`_process_chain_finding`: `CRITICAL` exactly when the link's own extra
check fires `CRITICAL`, otherwise the accumulator is unchanged. -/
theorem chainAccStep_maxSeverity (env : VisitorEnv) (a : ChainAcc)
    (e : String × String × Expr) :
    (chainAccStep env a e).maxSeverity =
      if linkEscalatesCritical env e then Severity.CRITICAL else a.maxSeverity := by
  unfold chainAccStep linkEscalatesCritical
  cases h : env.ruleLoader.getRule e.1 e.2.1 with
  | none => simp
  | some rule =>
    cases hec : rule.extraChecks with
    | none => simp [hec]
    | some ec =>
      by_cases hs : (applyExtraChecks (argsOf e.2.2) rule Severity.HIGH).1 = Severity.CRITICAL
      · simp [hec, hs]
      · simp [hec, hs]

/-- The link loop of `_process_chain_finding` yields `CRITICAL` iff some
link escalates, else the initial accumulator severity. -/
theorem chainFold_maxSeverity (env : VisitorEnv) (l : List (String × String × Expr)) :
    ∀ a : ChainAcc,
      (List.foldl (chainAccStep env) a l).maxSeverity =
        if l.any (fun e => linkEscalatesCritical env e) then Severity.CRITICAL
        else a.maxSeverity := by
  induction l with
  | nil => intro a; simp
  | cons e rest ih =>
    intro a
    rw [List.foldl_cons, ih, chainAccStep_maxSeverity, List.any_cons]
    cases hb : linkEscalatesCritical env e
    · rw [Bool.false_or]
      cases hany : rest.any (fun e => linkEscalatesCritical env e) <;> simp [hany]
    · rw [Bool.true_or]
      cases hany : rest.any (fun e => linkEscalatesCritical env e) <;> simp [hany]

/-- Claim C3.  Every finding emitted by `_process_chain_finding` has
severity exactly `HIGH` unless some individual link's escalation check
fires `CRITICAL`, in which case it is `CRITICAL`; in particular the
severity never drops below the `HIGH` floor and is never taken from the
links' default severities. -/
theorem C3_chain_severity_floor (env : VisitorEnv) (st : ChainState) (c : Expr)
    (chainFns : List (String × String × Expr)) (h : chainFns ≠ []) :
    ∃ f : Finding,
      (processChainFinding env st c chainFns).findings = st.findings ++ [f] ∧
      f.severity = (if chainFns.any (fun e => linkEscalatesCritical env e)
        then Severity.CRITICAL else Severity.HIGH) ∧
      Severity.HIGH.exitCodeWeight ≤ f.severity.exitCodeWeight := by
  unfold processChainFinding
  rw [if_neg (by simpa [List.isEmpty_iff] using h)]
  have h2 := chainFold_maxSeverity env chainFns ⟨Severity.HIGH, [], [], []⟩
  refine ⟨_, rfl, ?_, ?_⟩
  · exact h2
  · show Severity.HIGH.exitCodeWeight ≤
      (List.foldl (chainAccStep env)
        ⟨Severity.HIGH, [], [], []⟩ chainFns).maxSeverity.exitCodeWeight
    rw [h2]
    split <;> decide

/-- Witness for claim C3 at a concrete one-link chain. -/
theorem C3_chain_severity_floor_witness :
    ∃ f : Finding,
      (processChainFinding c2Env ({} : ChainState) dfChainCall c3ChainFns).findings =
        ({} : ChainState).findings ++ [f] ∧
      f.severity = (if c3ChainFns.any (fun e => linkEscalatesCritical c2Env e)
        then Severity.CRITICAL else Severity.HIGH) ∧
      Severity.HIGH.exitCodeWeight ≤ f.severity.exitCodeWeight :=
  C3_chain_severity_floor c2Env {} dfChainCall c3ChainFns (by simp [c3ChainFns])

/-- Claim C9.  For every boolean-indexing assignment
`name = indexed[...]` in which `indexed` is currently bound to pandas,
`MutationVisitor.visit_Assign` emits exactly one synthesized
`boolean_indexing` finding; its severity is `HIGH` exactly when the
extracted snippet contains the `~` negation token (the unary negation
operator of the scanned language's dataframe library) and `MEDIUM`
otherwise, and the target name is rebound to pandas. -/
theorem C9_boolean_indexing_finding (env : VisitorEnv) (s : MutState)
    (sid tid vid nid : Nat) (varName indexedVar : String) (slice : List Expr)
    (h : dictGet? s.variableTypes indexedVar = some "pandas") :
    (mutVisitAssignNode env s sid [.Name tid varName]
        (.Subscript vid (.Name nid indexedVar) slice)).findings =
      s.findings ++ [boolIdxFinding env sid varName indexedVar] ∧
    (boolIdxFinding env sid varName indexedVar).library = "pandas" ∧
    (boolIdxFinding env sid varName indexedVar).functionName = "boolean_indexing" ∧
    (boolIdxFinding env sid varName indexedVar).severity =
      (if strContains (extractCodeSnippet env sid
          ((getPosition env sid).getD (1, 0)).1) "~"
        then Severity.HIGH else Severity.MEDIUM) ∧
    (mutVisitAssignNode env s sid [.Name tid varName]
        (.Subscript vid (.Name nid indexedVar) slice)).variableTypes =
      dictInsert s.variableTypes varName "pandas" := by
  show ((if dictGet? s.variableTypes indexedVar = some "pandas" then
      { s with findings := s.findings ++ [boolIdxFinding env sid varName indexedVar],
               variableTypes := dictInsert s.variableTypes varName "pandas" }
    else s) : MutState).findings = _ ∧ _ ∧ _ ∧ _ ∧
    ((if dictGet? s.variableTypes indexedVar = some "pandas" then
      { s with findings := s.findings ++ [boolIdxFinding env sid varName indexedVar],
               variableTypes := dictInsert s.variableTypes varName "pandas" }
    else s) : MutState).variableTypes = _
  rw [if_pos h]
  exact ⟨rfl, rfl, rfl, rfl, rfl⟩

/-- Witness for claim C9: `df2 = df[~mask]` with `df` bound to pandas
(the source line contains a `~`, so the witness exercises the `HIGH`
branch). -/
theorem C9_boolean_indexing_finding_witness :
    (mutVisitAssignNode c9Env c9St 7 [.Name 8 "df2"]
        (.Subscript 9 (.Name 10 "df") [.Other 11 []])).findings =
      c9St.findings ++ [boolIdxFinding c9Env 7 "df2" "df"] ∧
    (boolIdxFinding c9Env 7 "df2" "df").library = "pandas" ∧
    (boolIdxFinding c9Env 7 "df2" "df").functionName = "boolean_indexing" ∧
    (boolIdxFinding c9Env 7 "df2" "df").severity =
      (if strContains (extractCodeSnippet c9Env 7
          ((getPosition c9Env 7).getD (1, 0)).1) "~"
        then Severity.HIGH else Severity.MEDIUM) ∧
    (mutVisitAssignNode c9Env c9St 7 [.Name 8 "df2"]
        (.Subscript 9 (.Name 10 "df") [.Other 11 []])).variableTypes =
      dictInsert c9St.variableTypes "df2" "pandas" :=
  C9_boolean_indexing_finding c9Env c9St 7 8 9 10 "df2" "df" [.Other 11 []]
    (by decide)

/-- When `_create_hardcoded_finding` is called with an explicit severity
argument, the appended finding carries that severity and the category as
its function name, whether or not the catalogue has a rule for the
category. -/
theorem createHardcodedFinding_withSeverity (env : VisitorEnv) (s : HardState)
    (nid : Nat) (cat val : String) (vn : Option String) (sev : Severity) :
    ∃ fd : Finding,
      (createHardcodedFinding env s nid cat val vn (some sev)).findings =
        s.findings ++ [fd] ∧ fd.functionName = cat ∧ fd.severity = sev := by
  unfold createHardcodedFinding
  cases env.ruleLoader.getRule "hardcoded" cat <;> exact ⟨_, rfl, rfl, rfl⟩

/-- Claim C10 (amended).  For a standalone integer or float literal not
yet processed, a `magic_number` finding is emitted if and only if the
token is accepted by the runtime `int()`/`float()` parser (plain decimal
form; hexadecimal, octal and binary literals are silently skipped) and
the runtime value — the exact integer for an int token, the IEEE-754
double the token rounds to for a float token — is outside the allow-set
0 / 1 / -1; every emitted `magic_number` finding has severity
`CRITICAL`. -/
theorem C10_magic_number_emission (env : VisitorEnv) (s : HardState) (n : Nat)
    (tInt tFloat : String)
    (h : s.processedNodes.contains n = false) :
    (∃ fs : List Finding,
      (hardVisitIntegerNode env s n tInt).findings = s.findings ++ fs ∧
      (fs ≠ [] ↔ magicIntEmitted tInt = true) ∧
      ∀ f ∈ fs, f.functionName = "magic_number" ∧ f.severity = Severity.CRITICAL) ∧
    (∃ fs : List Finding,
      (hardVisitFloatNode env s n tFloat).findings = s.findings ++ fs ∧
      (fs ≠ [] ↔ magicFloatEmitted tFloat = true) ∧
      ∀ f ∈ fs, f.functionName = "magic_number" ∧ f.severity = Severity.CRITICAL) := by
  constructor
  · unfold hardVisitIntegerNode
    rw [h]
    unfold checkMagicNumber magicIntEmitted
    cases hp : pyIntParse tInt with
    | none => exact ⟨[], by simp [hp], by simp [hp], by simp⟩
    | some v =>
      cases hs : isCommonSafeNumber (Dec10.ofInt v) with
      | true => exact ⟨[], by simp [hp, hs], by simp [hp, hs], by simp⟩
      | false =>
        obtain ⟨fd, hfd, hname, hsev⟩ :=
          createHardcodedFinding_withSeverity env
            { s with processedNodes := s.processedNodes ++ [n] }
            n "magic_number" (toString v) none getFinancialSeverity
        refine ⟨[fd], ?_, by simp [hp, hs], ?_⟩
        · simp only [hp, Option.map_some]
          simp [hs]
          exact hfd
        · intro f hf
          rcases List.mem_singleton.mp hf with rfl
          exact ⟨hname, hsev⟩
  · unfold hardVisitFloatNode
    rw [h]
    unfold checkMagicNumber magicFloatEmitted
    cases hp : pyFloatParse tFloat with
    | none => exact ⟨[], by simp [hp], by simp [hp], by simp⟩
    | some v =>
      cases hs : floatSafeNumber v with
      | true => exact ⟨[], by simp [hp, hs], by simp [hp, hs], by simp⟩
      | false =>
        obtain ⟨fd, hfd, hname, hsev⟩ :=
          createHardcodedFinding_withSeverity env
            { s with processedNodes := s.processedNodes ++ [n] }
            n "magic_number" tFloat none getFinancialSeverity
        refine ⟨[fd], ?_, by simp [hp, hs], ?_⟩
        · simp only [hp, Option.map_some]
          simp [hs]
          exact hfd
        · intro f hf
          rcases List.mem_singleton.mp hf with rfl
          exact ⟨hname, hsev⟩

set_option maxRecDepth 20000 in
set_option exponentiation.threshold 1100 in
/-- Witness for the amended claim C10 at the tokens `42` and `0.5`.
Alongside, the emission predicate is evaluated at rounding-boundary
tokens: `1e-324` rounds to `0.0` and `0.99999999999999999999` rounds to
`1.0`, so neither is reported, while `5e-324` rounds to the smallest
subnormal and `1.000000000000001` to a double above `1.0`, so both are
reported. -/
theorem C10_magic_number_emission_witness :
    ((∃ fs : List Finding,
      (hardVisitIntegerNode c10Env ({} : HardState) 5 "42").findings =
        ({} : HardState).findings ++ fs ∧
      (fs ≠ [] ↔ magicIntEmitted "42" = true) ∧
      ∀ f ∈ fs, f.functionName = "magic_number" ∧ f.severity = Severity.CRITICAL) ∧
    (∃ fs : List Finding,
      (hardVisitFloatNode c10Env ({} : HardState) 5 "0.5").findings =
        ({} : HardState).findings ++ fs ∧
      (fs ≠ [] ↔ magicFloatEmitted "0.5" = true) ∧
      ∀ f ∈ fs, f.functionName = "magic_number" ∧ f.severity = Severity.CRITICAL)) ∧
    magicFloatEmitted "1e-324" = false ∧
    magicFloatEmitted "0.99999999999999999999" = false ∧
    magicFloatEmitted "5e-324" = true ∧
    magicFloatEmitted "1.000000000000001" = true :=
  ⟨C10_magic_number_emission c10Env {} 5 "42" "0.5" (by decide),
   by decide, by decide, by decide, by decide⟩

theorem mutVisitCallNode_plain (env : VisitorEnv) (hctx : env.context.aliases = [])
    (s : MutState) (nid m : Nat) (v : String) (args : List (Option String × Expr))
    (hv : strContains v "." = false) :
    mutVisitCallNode env s nid (.Name m v) args = s := by
  unfold mutVisitCallNode mutExtractFunctionInfo
  simp [AnalysisContext.resolveName, hctx, dictGet?, hv]

mutual
theorem mutVisitExpr_plain (env : VisitorEnv) (hctx : env.context.aliases = []) :
    ∀ (s : MutState), s.variableTypes = [] → ∀ (e : Expr), plainExpr e = true →
      mutVisitExpr env s e = s
  | s, hvt, .Name _ _, _ => rfl
  | s, hvt, .Attribute _ v _, he =>
      mutVisitExpr_plain env hctx s hvt v he
  | s, hvt, .Call nid f args, he => by
      cases f with
      | Name m v =>
        simp only [plainExpr, Bool.and_eq_true, Bool.not_eq_true'] at he
        have hc := mutVisitCallNode_plain env hctx s nid m v args he.1
        show mutVisitArgs env
          (mutVisitExpr env (mutVisitCallNode env s nid (.Name m v) args) (.Name m v)) args = s
        rw [hc]
        exact mutVisitArgs_plain env hctx s hvt args he.2
      | Attribute n2 v2 a2 => simp [plainExpr] at he
      | Call n2 f2 a2 => simp [plainExpr] at he
      | Subscript n2 v2 s2 => simp [plainExpr] at he
      | SimpleString n2 t2 => simp [plainExpr] at he
      | ConcatenatedString n2 l2 r2 => simp [plainExpr] at he
      | IntegerLit n2 t2 => simp [plainExpr] at he
      | FloatLit n2 t2 => simp [plainExpr] at he
      | BinaryOperation n2 l2 o2 r2 => simp [plainExpr] at he
      | Other n2 c2 => simp [plainExpr] at he
  | s, hvt, .Subscript n v sl, he => by
      simp only [plainExpr, Bool.and_eq_true] at he
      show mutVisitExprList env (mutVisitExpr env s v) sl = s
      rw [mutVisitExpr_plain env hctx s hvt v he.1]
      exact mutVisitExprList_plain env hctx s hvt sl he.2
  | s, hvt, .SimpleString _ _, he => rfl
  | s, hvt, .ConcatenatedString n l r, he => by simp [plainExpr] at he
  | s, hvt, .IntegerLit _ _, _ => rfl
  | s, hvt, .FloatLit _ _, _ => rfl
  | s, hvt, .BinaryOperation n l o r, he => by
      simp only [plainExpr, Bool.and_eq_true] at he
      show mutVisitExpr env (mutVisitExpr env s l) r = s
      rw [mutVisitExpr_plain env hctx s hvt l he.1]
      exact mutVisitExpr_plain env hctx s hvt r he.2
  | s, hvt, .Other n ch, he => mutVisitExprList_plain env hctx s hvt ch he

theorem mutVisitArgs_plain (env : VisitorEnv) (hctx : env.context.aliases = []) :
    ∀ (s : MutState), s.variableTypes = [] →
      ∀ (l : List (Option String × Expr)), plainArgs l = true →
        mutVisitArgs env s l = s
  | s, hvt, [], _ => rfl
  | s, hvt, (k, e) :: rest, hl => by
      simp only [plainArgs, Bool.and_eq_true] at hl
      show mutVisitArgs env (mutVisitExpr env s e) rest = s
      rw [mutVisitExpr_plain env hctx s hvt e hl.1]
      exact mutVisitArgs_plain env hctx s hvt rest hl.2

theorem mutVisitExprList_plain (env : VisitorEnv) (hctx : env.context.aliases = []) :
    ∀ (s : MutState), s.variableTypes = [] →
      ∀ (l : List Expr), plainList l = true → mutVisitExprList env s l = s
  | s, hvt, [], _ => rfl
  | s, hvt, e :: rest, hl => by
      simp only [plainList, Bool.and_eq_true] at hl
      show mutVisitExprList env (mutVisitExpr env s e) rest = s
      rw [mutVisitExpr_plain env hctx s hvt e hl.1]
      exact mutVisitExprList_plain env hctx s hvt rest hl.2
end

theorem mutVisitAssignNode_plain (env : VisitorEnv) (hctx : env.context.aliases = [])
    (s : MutState) (hvt : s.variableTypes = []) (sid : Nat)
    (targets : List Expr) (value : Expr) (hval : plainExpr value = true) :
    mutVisitAssignNode env s sid targets value = s := by
  unfold mutVisitAssignNode
  cases targets with
  | nil => rfl
  | cons t rest =>
    cases rest with
    | cons a b => cases t <;> rfl
    | nil =>
      cases t with
      | Name tn tv =>
        cases value with
        | Call cn f cargs =>
          cases f with
          | Name fm fv =>
            simp only [plainExpr, Bool.and_eq_true, Bool.not_eq_true'] at hval
            simp [mutExtractFunctionInfo, AnalysisContext.resolveName, hctx,
              dictGet?, hval.1]
          | Attribute n2 v2 a2 => simp [plainExpr] at hval
          | Call n2 f2 a2 => simp [plainExpr] at hval
          | Subscript n2 v2 s2 => simp [plainExpr] at hval
          | SimpleString n2 t2 => simp [plainExpr] at hval
          | ConcatenatedString n2 l2 r2 => simp [plainExpr] at hval
          | IntegerLit n2 t2 => simp [plainExpr] at hval
          | FloatLit n2 t2 => simp [plainExpr] at hval
          | BinaryOperation n2 l2 o2 r2 => simp [plainExpr] at hval
          | Other n2 c2 => simp [plainExpr] at hval
        | Subscript sn sv ssl =>
          show mutCheckBooleanIndexing env s sid tv (.Subscript sn sv ssl) = s
          unfold mutCheckBooleanIndexing
          cases sv with
          | Name vn vv => simp [hvt, dictGet?]
          | Attribute n2 v2 a2 => rfl
          | Call n2 f2 a2 => rfl
          | Subscript n2 v2 s2 => rfl
          | SimpleString n2 t2 => rfl
          | ConcatenatedString n2 l2 r2 => rfl
          | IntegerLit n2 t2 => rfl
          | FloatLit n2 t2 => rfl
          | BinaryOperation n2 l2 o2 r2 => rfl
          | Other n2 c2 => rfl
        | Name n2 v2 => rfl
        | Attribute n2 v2 a2 => rfl
        | SimpleString n2 t2 => rfl
        | ConcatenatedString n2 l2 r2 => rfl
        | IntegerLit n2 t2 => rfl
        | FloatLit n2 t2 => rfl
        | BinaryOperation n2 l2 o2 r2 => rfl
        | Other n2 c2 => rfl
      | Attribute n2 v2 a2 => rfl
      | Call n2 f2 a2 => rfl
      | Subscript n2 v2 s2 => rfl
      | SimpleString n2 t2 => rfl
      | ConcatenatedString n2 l2 r2 => rfl
      | IntegerLit n2 t2 => rfl
      | FloatLit n2 t2 => rfl
      | BinaryOperation n2 l2 o2 r2 => rfl
      | Other n2 c2 => rfl

theorem mutVisitSmallStmt_plain (env : VisitorEnv) (hctx : env.context.aliases = [])
    (s : MutState) (hvt : s.variableTypes = []) (st : SmallStmt)
    (hst : plainStmt st = true) : mutVisitSmallStmt env s st = s := by
  cases st with
  | Assign sid targets value =>
    simp only [plainStmt, Bool.and_eq_true] at hst
    show mutVisitExpr env
      (mutVisitExprList env (mutVisitAssignNode env s sid targets value) targets)
      value = s
    rw [mutVisitAssignNode_plain env hctx s hvt sid targets value hst.2,
        mutVisitExprList_plain env hctx s hvt targets hst.1]
    exact mutVisitExpr_plain env hctx s hvt value hst.2
  | ExprStmt sid v => exact mutVisitExpr_plain env hctx s hvt v hst
  | OtherSmall sid ch => exact mutVisitExprList_plain env hctx s hvt ch hst

theorem mutFoldStmts_plain (env : VisitorEnv) (hctx : env.context.aliases = []) :
    ∀ (l : List SmallStmt) (s : MutState), s.variableTypes = [] →
      l.all plainStmt = true → List.foldl (mutVisitSmallStmt env) s l = s
  | [], s, _, _ => rfl
  | st :: rest, s, hvt, hl => by
      simp only [List.all_cons, Bool.and_eq_true] at hl
      rw [List.foldl_cons, mutVisitSmallStmt_plain env hctx s hvt st hl.1]
      exact mutFoldStmts_plain env hctx rest s hvt hl.2

theorem mutFoldLines_plain (env : VisitorEnv) (hctx : env.context.aliases = []) :
    ∀ (m : PyModule) (s : MutState), s.variableTypes = [] →
      plainModulePred m = true → List.foldl (mutVisitLine env) s m = s
  | [], s, _, _ => rfl
  | line :: rest, s, hvt, hm => by
      simp only [plainModulePred, List.all_cons, Bool.and_eq_true] at hm
      rw [List.foldl_cons]
      have h1 : mutVisitLine env s line = s :=
        mutFoldStmts_plain env hctx line.body s hvt hm.1
      rw [h1]
      exact mutFoldLines_plain env hctx rest s hvt (by simp [plainModulePred, hm.2])

theorem chainState_append_nil (st : ChainState) :
    { st with innerCalls := st.innerCalls ++ [] } = st := by
  cases st
  simp

theorem chainExtractName_plain (env : VisitorEnv) (hctx : env.context.aliases = [])
    (vt : List (String × String)) (m : Nat) (v : String)
    (hv : strContains v "." = false) :
    chainExtractFunctionInfo env vt (.Name m v) = some (none, v) := by
  unfold chainExtractFunctionInfo
  simp [AnalysisContext.resolveName, hctx, dictGet?, hv]

theorem chainVisitCallNode_plain (env : VisitorEnv) (hctx : env.context.aliases = [])
    (st : ChainState) (nid m : Nat) (v : String) (args : List (Option String × Expr))
    (hv : strContains v "." = false) :
    chainVisitCallNode env st (.Call nid (.Name m v) args) = st := by
  unfold chainVisitCallNode
  have hcf : extractChainFunctions env st.variableTypes (.Call nid (.Name m v) args) = [] := by
    show ((match chainExtractFunctionInfo env st.variableTypes (.Name m v) with
      | some (some lib, fn) =>
        (match env.ruleLoader.getRule lib fn with
         | some _ => [(lib, fn, Expr.Call nid (.Name m v) args)]
         | none => [])
      | _ => ([] : List (String × String × Expr))) ++ []).reverse = []
    rw [chainExtractName_plain env hctx st.variableTypes m v hv]
    rfl
  simp only [markInnerCalls, hcf]
  simp [chainState_append_nil]

theorem chainVisitAssignNode_plain (env : VisitorEnv) (hctx : env.context.aliases = [])
    (st : ChainState) (targets : List Expr) (value : Expr)
    (hval : plainExpr value = true) :
    chainVisitAssignNode env st targets value = st := by
  unfold chainVisitAssignNode
  cases targets with
  | nil => rfl
  | cons t rest =>
    cases rest with
    | cons a b => cases t <;> rfl
    | nil =>
      cases t with
      | Name tn tv =>
        cases value with
        | Call cn f cargs =>
          cases f with
          | Name fm fv =>
            simp only [plainExpr, Bool.and_eq_true, Bool.not_eq_true'] at hval
            simp [chainExtractName_plain env hctx st.variableTypes fm fv hval.1]
          | Attribute n2 v2 a2 => simp [plainExpr] at hval
          | Call n2 f2 a2 => simp [plainExpr] at hval
          | Subscript n2 v2 s2 => simp [plainExpr] at hval
          | SimpleString n2 t2 => simp [plainExpr] at hval
          | ConcatenatedString n2 l2 r2 => simp [plainExpr] at hval
          | IntegerLit n2 t2 => simp [plainExpr] at hval
          | FloatLit n2 t2 => simp [plainExpr] at hval
          | BinaryOperation n2 l2 o2 r2 => simp [plainExpr] at hval
          | Other n2 c2 => simp [plainExpr] at hval
        | Name n2 v2 => rfl
        | Attribute n2 v2 a2 => rfl
        | Subscript n2 v2 s2 => rfl
        | SimpleString n2 t2 => rfl
        | ConcatenatedString n2 l2 r2 => rfl
        | IntegerLit n2 t2 => rfl
        | FloatLit n2 t2 => rfl
        | BinaryOperation n2 l2 o2 r2 => rfl
        | Other n2 c2 => rfl
      | Attribute n2 v2 a2 => rfl
      | Call n2 f2 a2 => rfl
      | Subscript n2 v2 s2 => rfl
      | SimpleString n2 t2 => rfl
      | ConcatenatedString n2 l2 r2 => rfl
      | IntegerLit n2 t2 => rfl
      | FloatLit n2 t2 => rfl
      | BinaryOperation n2 l2 o2 r2 => rfl
      | Other n2 c2 => rfl

mutual
theorem chainVisitExpr_plain (env : VisitorEnv) (hctx : env.context.aliases = []) :
    ∀ (st : ChainState), ∀ (e : Expr), plainExpr e = true →
      chainVisitExpr env st e = st
  | st, .Name _ _, _ => rfl
  | st, .Attribute _ v _, he => chainVisitExpr_plain env hctx st v he
  | st, .Call nid f args, he => by
      cases f with
      | Name m v =>
        simp only [plainExpr, Bool.and_eq_true, Bool.not_eq_true'] at he
        show chainVisitArgs env
          (chainVisitExpr env
            (chainVisitCallNode env st (.Call nid (.Name m v) args)) (.Name m v)) args = st
        rw [chainVisitCallNode_plain env hctx st nid m v args he.1]
        exact chainVisitArgs_plain env hctx st args he.2
      | Attribute n2 v2 a2 => simp [plainExpr] at he
      | Call n2 f2 a2 => simp [plainExpr] at he
      | Subscript n2 v2 s2 => simp [plainExpr] at he
      | SimpleString n2 t2 => simp [plainExpr] at he
      | ConcatenatedString n2 l2 r2 => simp [plainExpr] at he
      | IntegerLit n2 t2 => simp [plainExpr] at he
      | FloatLit n2 t2 => simp [plainExpr] at he
      | BinaryOperation n2 l2 o2 r2 => simp [plainExpr] at he
      | Other n2 c2 => simp [plainExpr] at he
  | st, .Subscript n v sl, he => by
      simp only [plainExpr, Bool.and_eq_true] at he
      show chainVisitExprList env (chainVisitExpr env st v) sl = st
      rw [chainVisitExpr_plain env hctx st v he.1]
      exact chainVisitExprList_plain env hctx st sl he.2
  | st, .SimpleString _ _, he => rfl
  | st, .ConcatenatedString n l r, he => by simp [plainExpr] at he
  | st, .IntegerLit _ _, _ => rfl
  | st, .FloatLit _ _, _ => rfl
  | st, .BinaryOperation n l o r, he => by
      simp only [plainExpr, Bool.and_eq_true] at he
      show chainVisitExpr env (chainVisitExpr env st l) r = st
      rw [chainVisitExpr_plain env hctx st l he.1]
      exact chainVisitExpr_plain env hctx st r he.2
  | st, .Other n ch, he => chainVisitExprList_plain env hctx st ch he

theorem chainVisitArgs_plain (env : VisitorEnv) (hctx : env.context.aliases = []) :
    ∀ (st : ChainState), ∀ (l : List (Option String × Expr)), plainArgs l = true →
      chainVisitArgs env st l = st
  | st, [], _ => rfl
  | st, (k, e) :: rest, hl => by
      simp only [plainArgs, Bool.and_eq_true] at hl
      show chainVisitArgs env (chainVisitExpr env st e) rest = st
      rw [chainVisitExpr_plain env hctx st e hl.1]
      exact chainVisitArgs_plain env hctx st rest hl.2

theorem chainVisitExprList_plain (env : VisitorEnv) (hctx : env.context.aliases = []) :
    ∀ (st : ChainState), ∀ (l : List Expr), plainList l = true →
      chainVisitExprList env st l = st
  | st, [], _ => rfl
  | st, e :: rest, hl => by
      simp only [plainList, Bool.and_eq_true] at hl
      show chainVisitExprList env (chainVisitExpr env st e) rest = st
      rw [chainVisitExpr_plain env hctx st e hl.1]
      exact chainVisitExprList_plain env hctx st rest hl.2
end

theorem chainVisitSmallStmt_plain (env : VisitorEnv) (hctx : env.context.aliases = [])
    (st : ChainState) (s : SmallStmt) (hs : plainStmt s = true) :
    chainVisitSmallStmt env st s = st := by
  cases s with
  | Assign sid targets value =>
    simp only [plainStmt, Bool.and_eq_true] at hs
    show chainVisitExpr env
      (chainVisitExprList env (chainVisitAssignNode env st targets value) targets)
      value = st
    rw [chainVisitAssignNode_plain env hctx st targets value hs.2,
        chainVisitExprList_plain env hctx st targets hs.1]
    exact chainVisitExpr_plain env hctx st value hs.2
  | ExprStmt sid v => exact chainVisitExpr_plain env hctx st v hs
  | OtherSmall sid ch => exact chainVisitExprList_plain env hctx st ch hs

theorem chainFoldStmts_plain (env : VisitorEnv) (hctx : env.context.aliases = []) :
    ∀ (l : List SmallStmt) (st : ChainState), l.all plainStmt = true →
      List.foldl (chainVisitSmallStmt env) st l = st
  | [], st, _ => rfl
  | s :: rest, st, hl => by
      simp only [List.all_cons, Bool.and_eq_true] at hl
      rw [List.foldl_cons, chainVisitSmallStmt_plain env hctx st s hl.1]
      exact chainFoldStmts_plain env hctx rest st hl.2

theorem chainFoldLines_plain (env : VisitorEnv) (hctx : env.context.aliases = []) :
    ∀ (m : PyModule) (st : ChainState), plainModulePred m = true →
      List.foldl (chainVisitLine env) st m = st
  | [], st, _ => rfl
  | line :: rest, st, hm => by
      simp only [plainModulePred, List.all_cons, Bool.and_eq_true] at hm
      rw [List.foldl_cons]
      have h1 : chainVisitLine env st line = st :=
        chainFoldStmts_plain env hctx line.body st hm.1
      rw [h1]
      exact chainFoldLines_plain env hctx rest st (by simp [plainModulePred, hm.2])

theorem sqlArgStep_nostr (env : VisitorEnv) (line : StmtLine) (s : SqlState)
    (hs : s.sqlVariables = []) (a : Option String × Expr)
    (ha : noStringsExpr a.2 = true) : sqlArgStep env line s a = s := by
  obtain ⟨k, e⟩ := a
  unfold sqlArgStep
  cases e with
  | SimpleString n t => simp [noStringsExpr] at ha
  | ConcatenatedString n l r => simp [noStringsExpr] at ha
  | Name n2 v2 => simp [hs, dictGet?]
  | Attribute n2 v2 a2 => rfl
  | Call n2 f2 a2 => rfl
  | Subscript n2 v2 s2 => rfl
  | IntegerLit n2 t2 => rfl
  | FloatLit n2 t2 => rfl
  | BinaryOperation n2 l2 o2 r2 => rfl
  | Other n2 c2 => rfl

theorem checkSqlInCall_nostr (env : VisitorEnv) (line : StmtLine) :
    ∀ (args : List (Option String × Expr)) (s : SqlState), s.sqlVariables = [] →
      noStringsArgs args = true → checkSqlInCall env s args line = s
  | [], s, _, _ => rfl
  | a :: rest, s, hs, ha => by
      obtain ⟨k, e⟩ := a
      simp only [noStringsArgs, Bool.and_eq_true] at ha
      unfold checkSqlInCall
      rw [List.foldl_cons, sqlArgStep_nostr env line s hs (k, e) ha.1]
      exact checkSqlInCall_nostr env line rest s hs ha.2

theorem sqlVisitAssignNode_nostr (env : VisitorEnv) (s : SqlState)
    (targets : List Expr) (value : Expr) (hv : noStringsExpr value = true) :
    sqlVisitAssignNode env s targets value = s := by
  unfold sqlVisitAssignNode
  cases targets with
  | nil => rfl
  | cons t rest =>
    cases rest with
    | cons a b => cases t <;> rfl
    | nil =>
      cases t with
      | Name tn tv =>
        cases value with
        | SimpleString n t2 => simp [noStringsExpr] at hv
        | ConcatenatedString n l r => simp [noStringsExpr] at hv
        | Name n2 v2 => rfl
        | Attribute n2 v2 a2 => rfl
        | Call n2 f2 a2 => rfl
        | Subscript n2 v2 s2 => rfl
        | IntegerLit n2 t2 => rfl
        | FloatLit n2 t2 => rfl
        | BinaryOperation n2 l2 o2 r2 => rfl
        | Other n2 c2 => rfl
      | Attribute n2 v2 a2 => rfl
      | Call n2 f2 a2 => rfl
      | Subscript n2 v2 s2 => rfl
      | SimpleString n2 t2 => rfl
      | ConcatenatedString n2 l2 r2 => rfl
      | IntegerLit n2 t2 => rfl
      | FloatLit n2 t2 => rfl
      | BinaryOperation n2 l2 o2 r2 => rfl
      | Other n2 c2 => rfl

theorem sqlStmtCheckStep_nostr (env : VisitorEnv) (line : StmtLine)
    (s : SqlState) (hs : s.sqlVariables = []) (st : SmallStmt)
    (hst : noStringsStmt st = true) : sqlStmtCheckStep env line s st = s := by
  cases st with
  | ExprStmt sid v =>
    cases v with
    | Call n f args =>
      simp only [noStringsStmt, noStringsExpr, Bool.and_eq_true] at hst
      exact checkSqlInCall_nostr env line args s hs hst.2
    | Name n2 v2 => rfl
    | Attribute n2 v2 a2 => rfl
    | Subscript n2 v2 s2 => rfl
    | SimpleString n2 t2 => rfl
    | ConcatenatedString n2 l2 r2 => rfl
    | IntegerLit n2 t2 => rfl
    | FloatLit n2 t2 => rfl
    | BinaryOperation n2 l2 o2 r2 => rfl
    | Other n2 c2 => rfl
  | Assign sid targets value => rfl
  | OtherSmall sid ch => rfl

theorem sqlAssignStep_nostr (env : VisitorEnv) (s : SqlState)
    (st : SmallStmt) (hst : noStringsStmt st = true) :
    sqlAssignStep env s st = s := by
  cases st with
  | Assign sid targets value =>
    simp only [noStringsStmt, Bool.and_eq_true] at hst
    exact sqlVisitAssignNode_nostr env s targets value hst.2
  | ExprStmt sid v => rfl
  | OtherSmall sid ch => rfl

theorem sqlFoldCheck_nostr (env : VisitorEnv) (line : StmtLine) :
    ∀ (l : List SmallStmt) (s : SqlState), s.sqlVariables = [] →
      l.all noStringsStmt = true → List.foldl (sqlStmtCheckStep env line) s l = s
  | [], s, _, _ => rfl
  | st :: rest, s, hs, hl => by
      simp only [List.all_cons, Bool.and_eq_true] at hl
      rw [List.foldl_cons, sqlStmtCheckStep_nostr env line s hs st hl.1]
      exact sqlFoldCheck_nostr env line rest s hs hl.2

theorem sqlFoldAssign_nostr (env : VisitorEnv) :
    ∀ (l : List SmallStmt) (s : SqlState), l.all noStringsStmt = true →
      List.foldl (sqlAssignStep env) s l = s
  | [], s, _ => rfl
  | st :: rest, s, hl => by
      simp only [List.all_cons, Bool.and_eq_true] at hl
      rw [List.foldl_cons, sqlAssignStep_nostr env s st hl.1]
      exact sqlFoldAssign_nostr env rest s hl.2

theorem sqlVisitLine_nostr (env : VisitorEnv) (line : StmtLine) (s : SqlState)
    (hs : s.sqlVariables = []) (hl : line.body.all noStringsStmt = true) :
    sqlVisitLine env s line = s := by
  unfold sqlVisitLine sqlVisitLineNode
  rw [sqlFoldCheck_nostr env line line.body s hs hl]
  exact sqlFoldAssign_nostr env line.body s hl

theorem sqlFoldLines_nostr (env : VisitorEnv) :
    ∀ (m : PyModule) (s : SqlState), s.sqlVariables = [] →
      noStringsModule m = true → List.foldl (sqlVisitLine env) s m = s
  | [], s, _, _ => rfl
  | line :: rest, s, hs, hm => by
      simp only [noStringsModule, List.all_cons, Bool.and_eq_true] at hm
      rw [List.foldl_cons, sqlVisitLine_nostr env line s hs hm.1]
      exact sqlFoldLines_nostr env rest s hs (by simp [noStringsModule, hm.2])

/-- Claim C4 (amended).  For every file with no string literals the
SQL-Literal detector reports zero findings; and for every file analyzed
with no recognized imports (empty alias map and import set) whose calls
are all plain undotted names — i.e. excluding the method-call receiver
forms that the counterexample shows can resolve without imports via the
`df`/`data`/`frame` and `arr`/`array`/`np_` naming heuristic or a bare
name matching a bundle's alias pattern — the Mutation and Chain
detectors also report zero findings. -/
theorem C4_no_imports_zero_findings :
    (∀ (env : VisitorEnv) (m : PyModule), noStringsModule m = true →
      (sqlRun env m).findings = []) ∧
    (∀ (env : VisitorEnv) (m : PyModule), env.context.aliases = [] →
      env.context.imports = [] → plainModulePred m = true →
      (mutationRun env m).findings = [] ∧ (chainRun env m).findings = []) := by
  constructor
  · intro env m hm
    show (List.foldl (sqlVisitLine env) {} m).findings = []
    rw [sqlFoldLines_nostr env m {} rfl hm]
  · intro env m hctx _himp hm
    constructor
    · show (List.foldl (mutVisitLine env) {} m).findings = []
      rw [mutFoldLines_plain env hctx m {} rfl hm]
    · show (List.foldl (chainVisitLine env) {} m).findings = []
      rw [chainFoldLines_plain env hctx m {} hm]

/-- Witness for the amended claim C4: the plain-call module `foo(1)`
analyzed with an empty context yields zero findings from all three
detectors. -/
theorem C4_no_imports_zero_findings_witness :
    (sqlRun plainEnv plainCallModule).findings = [] ∧
    (mutationRun plainEnv plainCallModule).findings = [] ∧
    (chainRun plainEnv plainCallModule).findings = [] :=
  ⟨C4_no_imports_zero_findings.1 plainEnv plainCallModule (by decide),
   (C4_no_imports_zero_findings.2 plainEnv plainCallModule rfl rfl (by decide)).1,
   (C4_no_imports_zero_findings.2 plainEnv plainCallModule rfl rfl (by decide)).2⟩

/-- Witness for the amended claim C1 at a concrete outcome list. -/
theorem C1_merge_drops_failed_partials_witness :
    masterMerge [.failed [c1PartialFinding], .ok [c1OtherFinding]] =
      [DetectorOutcome.failed [c1PartialFinding],
       DetectorOutcome.ok [c1OtherFinding]].flatMap
        DetectorOutcome.successFindings :=
  C1_merge_drops_failed_partials
    [.failed [c1PartialFinding], .ok [c1OtherFinding]]

/-- Witness for claim C5 at concrete severities (`MEDIUM` default,
`CRITICAL` escalated). -/
theorem C5_mutation_drop_severity_witness :
    (mutationRun (mkEnv (mkPandasLoader Severity.MEDIUM Severity.CRITICAL)
          pandasCtx "x = 1") dropModule).findings.map
        (fun f => (f.library, f.functionName, f.severity, f.extraContext)) =
      [("pandas", "drop", Severity.MEDIUM, [])] ∧
      (mutationRun (mkEnv (mkPandasLoader Severity.MEDIUM Severity.CRITICAL)
            pandasCtx "x = 1") dropInplaceModule).findings.map
          (fun f => (f.library, f.functionName, f.severity, f.extraContext)) =
        [("pandas", "drop", Severity.CRITICAL,
          [("matched_arg", CtxVal.matchedArg "inplace" (PyVal.pybool true))])] :=
  C5_mutation_drop_severity Severity.MEDIUM Severity.CRITICAL

/-- Witness for claim C6 at concrete severities. -/
theorem C6_sql_keyword_findings_witness :
    (sqlRun (mkEnv (mkSqlLoader Severity.CRITICAL Severity.HIGH) emptyCtx
          "cursor.execute(q)") sqlDeleteModule).findings.map
        (fun f => (f.library, f.functionName, f.severity)) =
      [("sql", "DELETE", Severity.CRITICAL)] ∧
      (sqlRun (mkEnv (mkSqlLoader Severity.CRITICAL Severity.HIGH) emptyCtx
            "cursor.execute(q)") sqlTwoKeywordModule).findings.map
          (fun f => (f.functionName, f.severity)) =
        [("DELETE", Severity.CRITICAL), ("INSERT", Severity.HIGH)] :=
  C6_sql_keyword_findings Severity.CRITICAL Severity.HIGH
